import Mathlib

/-!
Verification of the book-recommendation pipeline of this repository
(`app/services/gemini_service.py`, `app/routers/books.py`,
`app/routers/recommendations.py`, `app/models/book.py`).

The Python code is shallowly embedded: pure functions become Lean
functions; the external generative-model backend, the cover-image web
lookups and the JSON-repair round trip are oracles passed as function
parameters; Python exceptions become an explicit `Except PyErr`
error monad.  Python's process-salted `hash(str)` builtin is a
parameter `h : String → Int`.  Python floats appear only in the
synthetic `rating` field, which no claim inspects; they are encoded as
integers in tenths.  Python's `json.loads` is modelled by a small
executable JSON parser (`loads`) covering null/true/false, integer
numbers, strings with the common escapes, arrays and objects; the
theorems about the parsing control flow take the outcome of `loads` as
a hypothesis, so only the concrete witness inputs rely on the parser
itself.
-/

/-- Characters treated as whitespace by both Python `str.strip` and JSON. -/
def isWs (c : Char) : Bool :=
  c = ' ' ∨ c = '\n' ∨ c = '\t' ∨ c = '\r'

/-- Model of Python `str.strip()` (drop leading/trailing whitespace). -/
def pyStrip (s : String) : String :=
  ⟨(s.data.dropWhile isWs).reverse.dropWhile isWs |>.reverse⟩

/-- Model of Python `str.lower()` (per-character lowering; the inputs of
interest are ASCII, where this matches Python exactly). -/
def pyLower (s : String) : String :=
  ⟨s.data.map Char.toLower⟩

/-- Model of Python `s[:k]` for a nonnegative literal `k` (first `k` characters). -/
def strTake (s : String) (k : Nat) : String :=
  ⟨s.data.take k⟩

/-- Model of Python `s[k:]` for a nonnegative literal `k`. -/
def strDrop (s : String) (k : Nat) : String :=
  ⟨s.data.drop k⟩

/-- Model of Python `s[:-k]` for a positive literal `k`. -/
def strDropRight (s : String) (k : Nat) : String :=
  ⟨s.data.take (s.data.length - k)⟩

/-- Model of Python list slicing `xs[:n]` with an arbitrary (possibly
negative) integer bound. -/
def pySliceTo {α : Type} (xs : List α) (n : Int) : List α :=
  if 0 ≤ n then xs.take n.toNat else xs.take (xs.length - (-n).toNat)

/-- Does `needle` occur at the start of `hay`? -/
def listStarts : List Char → List Char → Bool
  | [], _ => true
  | _ :: _, [] => false
  | a :: as, b :: bs => a = b && listStarts as bs

/-- Does `needle` occur somewhere in `hay`? -/
def hasSubList (needle : List Char) : List Char → Bool
  | [] => listStarts needle []
  | c :: t => if listStarts needle (c :: t) then true else hasSubList needle t

/-- Model of Python's substring test `needle in hay`. -/
def strContains (hay needle : String) : Bool :=
  hasSubList needle.data hay.data

/-- Model of `s.startswith(pre)`. -/
def strStarts (s pre : String) : Bool :=
  listStarts pre.data s.data

/-- Model of `s.endswith(suf)`. -/
def strEnds (s suf : String) : Bool :=
  listStarts suf.data.reverse s.data.reverse

/-- Model of Python `s.replace(a, b)` for one-character `a` and `b`
(the only shape this code base uses). -/
def pyReplaceChar (s : String) (a b : Char) : String :=
  ⟨s.data.map (fun c => if c = a then b else c)⟩

/-- Decimal digits, most significant first, by structural recursion on a
fuel bound (any fuel at least the number itself suffices). -/
def natDigitsGo : Nat → Nat → List Nat
  | 0, n => [n % 10]
  | fuel + 1, n => if n < 10 then [n] else natDigitsGo fuel (n / 10) ++ [n % 10]

/-- Decimal digits of a natural number, most significant first
(the digit list underlying Python's `str(int)` for nonnegative ints). -/
def natDigits (n : Nat) : List Nat :=
  natDigitsGo n n

/-- Model of Python `str(n)` for a nonnegative integer. -/
def natDecimal (n : Nat) : String :=
  ⟨(natDigits n).map (fun d => Char.ofNat (48 + d))⟩

/-- Python exceptions that the embedded code can raise. -/
inductive PyErr where
  | httpError (statusCode : Nat) (detail : String)
  | valueError (msg : String)
  | typeError (msg : String)
  | attributeError (msg : String)
  | nameError (msg : String)
  | pyExc (msg : String)
deriving Repr, DecidableEq

/-- Model of Python `str(exception)` (for `HTTPException`, starlette
renders `"<status>: <detail>"`). -/
def pyErrStr : PyErr → String
  | .httpError s d => natDecimal s ++ ": " ++ d
  | .valueError m => m
  | .typeError m => m
  | .attributeError m => m
  | .nameError m => m
  | .pyExc m => m

/-- Model of Python truthiness on JSON-shaped values. -/
inductive Json where
  | null
  | bool (b : Bool)
  | num (n : Int)
  | str (s : String)
  | arr (items : List Json)
  | obj (fields : List (String × Json))

/-- Python truthiness of a JSON-shaped value. -/
def pyTruthy : Json → Bool
  | .null => false
  | .bool b => b
  | .num n => n ≠ 0
  | .str s => s ≠ ""
  | .arr items => items.length ≠ 0
  | .obj fields => fields.length ≠ 0

/-- Skip JSON whitespace. -/
def skipWs : List Char → List Char
  | c :: cs => if isWs c then skipWs cs else c :: cs
  | [] => []

/-- Parse the remainder of a JSON string literal (after the opening quote),
accumulating characters; supports the common escapes. -/
def parseStringLit : Nat → List Char → List Char → Option (String × List Char)
  | 0, _, _ => none
  | _, [], _ => none
  | fuel + 1, c :: cs, acc =>
    if c = '"' then some (⟨acc.reverse⟩, cs)
    else if c = '\\' then
      match cs with
      | [] => none
      | e :: cs2 =>
        let dec : Option Char :=
          if e = '"' then some '"'
          else if e = '\\' then some '\\'
          else if e = '/' then some '/'
          else if e = 'n' then some '\n'
          else if e = 't' then some '\t'
          else if e = 'r' then some '\r'
          else none
        match dec with
        | some d => parseStringLit fuel cs2 (d :: acc)
        | none => none
    else parseStringLit fuel cs (c :: acc)

/-- Parse a run of decimal digits into a natural number. -/
def parseDigits : List Char → Nat → Bool → Option (Nat × List Char)
  | c :: rest, acc, seen =>
    if c.isDigit then parseDigits rest (acc * 10 + (c.toNat - 48)) true
    else if seen then some (acc, c :: rest) else none
  | [], acc, seen => if seen then some (acc, []) else none

/-- Match an expected literal (`true` / `false` / `null`). -/
def expectLit : List Char → List Char → Option (List Char)
  | cs, [] => some cs
  | c :: cs, l :: ls => if c = l then expectLit cs ls else none
  | [], _ :: _ => none

/-- Recursive-descent JSON value parser (fuel-bounded).  After an element
and a comma inside an array (resp. object) the remainder is reparsed as a
fresh array (resp. object) by re-prefixing the opening bracket. -/
def parseVal : Nat → List Char → Option (Json × List Char)
  | 0, _ => none
  | fuel + 1, cs0 =>
    match skipWs cs0 with
    | [] => none
    | c :: rest =>
      if c = '[' then
        match skipWs rest with
        | ']' :: r2 => some (.arr [], r2)
        | _ =>
          match parseVal fuel rest with
          | none => none
          | some (x, r1) =>
            match skipWs r1 with
            | ',' :: r5 =>
              (match skipWs r5 with
               | ']' :: _ => none
               | _ =>
                 match parseVal fuel ('[' :: r5) with
                 | some (.arr xs, r6) => some (.arr (x :: xs), r6)
                 | _ => none)
            | ']' :: r2 => some (.arr [x], r2)
            | _ => none
      else if c = Char.ofNat 123 then
        match skipWs rest with
        | [] => none
        | c2 :: r2 =>
          if c2 = Char.ofNat 125 then some (.obj [], r2)
          else if c2 = '"' then
            match parseStringLit fuel r2 [] with
            | none => none
            | some (key, r3) =>
              match skipWs r3 with
              | ':' :: r4 =>
                (match parseVal fuel r4 with
                 | none => none
                 | some (v, r5) =>
                   match skipWs r5 with
                   | ',' :: r6 =>
                     (match skipWs r6 with
                      | c7 :: _ =>
                        if c7 = Char.ofNat 125 then none
                        else
                          match parseVal fuel (Char.ofNat 123 :: r6) with
                          | some (.obj kvs, r7) => some (.obj ((key, v) :: kvs), r7)
                          | _ => none
                      | [] => none)
                   | c6 :: r6 =>
                     if c6 = Char.ofNat 125 then some (.obj [(key, v)], r6) else none
                   | [] => none)
              | _ => none
          else none
      else if c = '"' then
        match parseStringLit fuel rest [] with
        | some (s, r) => some (.str s, r)
        | none => none
      else if c = '-' then
        match parseDigits rest 0 false with
        | some (n, r) => some (.num (-(n : Int)), r)
        | none => none
      else if c.isDigit then
        match parseDigits (c :: rest) 0 false with
        | some (n, r) => some (.num (n : Int), r)
        | none => none
      else if c = 't' then
        (expectLit rest ['r', 'u', 'e']).map (fun r => (.bool true, r))
      else if c = 'f' then
        (expectLit rest ['a', 'l', 's', 'e']).map (fun r => (.bool false, r))
      else if c = 'n' then
        (expectLit rest ['u', 'l', 'l']).map (fun r => (.null, r))
      else none

/-- Model of Python `json.loads`: `none` models `json.JSONDecodeError`. -/
def loads (s : String) : Option Json :=
  match parseVal (s.data.length + 1) s.data with
  | some (j, rest) => if skipWs rest = [] then some j else none
  | none => none

/-- Model of the fence-stripping in `generate_recommendations`
(gemini_service.py lines 272-280): strip, drop a leading "```json" or
"```", drop a trailing "```", strip again. -/
def cleanContent (raw : String) : String :=
  let c := pyStrip raw
  let c := if strStarts c "```json" then strDrop c 7 else c
  let c := if strStarts c "```" then strDrop c 3 else c
  let c := if strEnds c "```" then strDropRight c 3 else c
  pyStrip c

/-- Model of `re.search(r'\[.*\]', content, re.DOTALL)`: the greedy match
runs from the first `[` to the last `]`, provided that `]` comes later. -/
def extractBracket (s : String) : Option String :=
  match s.data.findIdx? (fun c => c = '[') with
  | none => none
  | some i =>
    match s.data.reverse.findIdx? (fun c => c = ']') with
    | none => none
    | some ri =>
      let j := s.data.length - 1 - ri
      if i < j then some ⟨(s.data.drop i).take (j - i + 1)⟩ else none

/-- Python dict lookup on the field list of a JSON object; on duplicate
keys the later entry wins, as in a Python dict built from JSON. -/
def lookupKey (fields : List (String × Json)) (k : String) : Option Json :=
  fields.foldl (fun acc kv => if kv.1 = k then some kv.2 else acc) none

/-- Python dict assignment `d[k] = v` (update in place or append). -/
def setKey (fields : List (String × Json)) (k : String) (v : Json) :
    List (String × Json) :=
  if fields.any (fun kv => kv.1 = k) then
    fields.map (fun kv => if kv.1 = k then (k, v) else kv)
  else fields ++ [(k, v)]

/-- The closed language vocabulary (gemini_service.py lines 605-609). -/
def valid_languages : List String :=
  ["English", "Spanish", "French", "German", "Italian", "Portuguese", "Russian",
   "Japanese", "Chinese", "Korean", "Arabic", "Hindi", "Bengali", "Tamil",
   "Telugu", "Marathi", "Gujarati", "Urdu", "Punjabi", "Sanskrit"]

/-- The closed target-audience vocabulary. -/
def valid_audiences : List String :=
  ["children", "young_adult", "adult", "general"]

/-- The closed book-type vocabulary. -/
def valid_book_types : List String :=
  ["fiction", "non_fiction", "biography", "memoir", "textbook", "reference"]

/-- The closed content-type vocabulary. -/
def valid_content_types : List String :=
  ["novel", "short_stories", "poetry", "essays", "academic", "self_help"]

/-- The closed reading-level vocabulary. -/
def valid_reading_levels : List String :=
  ["beginner", "intermediate", "advanced", "expert"]

/-- Model of `value.lower() if value else ''` on a JSON-shaped Python value:
a string is lowered, a falsy value yields `""`, and a truthy non-string
raises `AttributeError`. -/
def pyLowerOrEmpty (v : Json) : Except PyErr String :=
  match v with
  | .str s => .ok (pyLower s)
  | other =>
    if pyTruthy other then .error (.attributeError "object has no attribute lower")
    else .ok ""

/-- Language normalization (gemini_service.py lines 616-627): exact match
against the valid set, else a case-insensitive scan, else `"English"`. -/
def normLanguage (v : Option Json) : Except PyErr String :=
  match v.getD (.str "English") with
  | .str s =>
    if s ∈ valid_languages then .ok s
    else
      match valid_languages.find? (fun vl => pyLower vl = pyLower s) with
      | some vl => .ok vl
      | none => .ok "English"
  | other =>
    match pyLowerOrEmpty other with
    | .error e => .error e
    | .ok low =>
      match valid_languages.find? (fun vl => pyLower vl = low) with
      | some vl => .ok vl
      | none => .ok "English"

/-- Target-audience normalization (lines 630-639): exact match, else a
lowercased equality scan, else `"general"`. -/
def normAudience (v : Option Json) : Except PyErr String :=
  match v.getD (.str "general") with
  | .str s =>
    if s ∈ valid_audiences then .ok s
    else
      match valid_audiences.find? (fun va => va = pyLower s) with
      | some va => .ok va
      | none => .ok "general"
  | other =>
    match pyLowerOrEmpty other with
    | .error e => .error e
    | .ok low =>
      match valid_audiences.find? (fun va => va = low) with
      | some va => .ok va
      | none => .ok "general"

/-- The loose part of book-type normalization (lines 644-656), applied to
the lowercased raw value: substring checks for fiction variants first,
then a scan allowing a hyphen in place of the underscore, else `"fiction"`. -/
def bookTypeLoose (low : String) : String :=
  if strContains low "non-fiction" ∨ strContains low "nonfiction" then "non_fiction"
  else if strContains low "fiction" then "fiction"
  else
    match valid_book_types.find?
        (fun vt => pyReplaceChar vt '_' '-' = low ∨ vt = low) with
    | some vt => vt
    | none => "fiction"

/-- Book-type normalization (lines 642-657). -/
def normBookType (v : Option Json) : Except PyErr String :=
  match v.getD (.str "fiction") with
  | .str s =>
    if s ∈ valid_book_types then .ok s else .ok (bookTypeLoose (pyLower s))
  | other =>
    match pyLowerOrEmpty other with
    | .error e => .error e
    | .ok low => .ok (bookTypeLoose low)

/-- Content-type normalization (lines 660-669): exact match, else a scan
allowing a space in place of the underscore, else `"novel"`. -/
def normContentType (v : Option Json) : Except PyErr String :=
  match v.getD (.str "novel") with
  | .str s =>
    if s ∈ valid_content_types then .ok s
    else
      match valid_content_types.find?
          (fun vc => pyReplaceChar vc '_' ' ' = pyLower s ∨ vc = pyLower s) with
      | some vc => .ok vc
      | none => .ok "novel"
  | other =>
    match pyLowerOrEmpty other with
    | .error e => .error e
    | .ok low =>
      match valid_content_types.find?
          (fun vc => pyReplaceChar vc '_' ' ' = low ∨ vc = low) with
      | some vc => .ok vc
      | none => .ok "novel"

/-- Reading-level normalization (lines 672-681): exact match, else a
lowercased equality scan, else `"intermediate"`. -/
def normReadingLevel (v : Option Json) : Except PyErr String :=
  match v.getD (.str "intermediate") with
  | .str s =>
    if s ∈ valid_reading_levels then .ok s
    else
      match valid_reading_levels.find? (fun vr => vr = pyLower s) with
      | some vr => .ok vr
      | none => .ok "intermediate"
  | other =>
    match pyLowerOrEmpty other with
    | .error e => .error e
    | .ok low =>
      match valid_reading_levels.find? (fun vr => vr = low) with
      | some vr => .ok vr
      | none => .ok "intermediate"

/-- `GeminiService.validate_and_normalize_filters` (lines 600-683): each of
the five classification fields is normalized and written back into the
candidate record; a truthy non-string field value raises. -/
def validate_and_normalize_filters (book_data : List (String × Json)) :
    Except PyErr (List (String × Json)) :=
  match normLanguage (lookupKey book_data "language") with
  | .error e => .error e
  | .ok lang =>
  match normAudience (lookupKey book_data "target_audience") with
  | .error e => .error e
  | .ok aud =>
  match normBookType (lookupKey book_data "book_type") with
  | .error e => .error e
  | .ok bt =>
  match normContentType (lookupKey book_data "content_type") with
  | .error e => .error e
  | .ok ct =>
  match normReadingLevel (lookupKey book_data "reading_level") with
  | .error e => .error e
  | .ok rl =>
    .ok (setKey (setKey (setKey (setKey (setKey book_data
      "language" (.str lang))
      "target_audience" (.str aud))
      "book_type" (.str bt))
      "content_type" (.str ct))
      "reading_level" (.str rl))

/-- Hex digit character (uppercase), as used by `urllib.parse.quote`. -/
def hexChar (n : Nat) : Char :=
  if n < 10 then Char.ofNat (48 + n) else Char.ofNat (55 + n)

/-- Is a UTF-8 byte kept unescaped by `urllib.parse.quote` with the
default `safe='/'` (ASCII alphanumerics, `_.-~` and `/`). -/
def quoteSafe (b : UInt8) : Bool :=
  let n := b.toNat
  (48 ≤ n ∧ n ≤ 57) ∨ (65 ≤ n ∧ n ≤ 90) ∨ (97 ≤ n ∧ n ≤ 122) ∨
  n = 95 ∨ n = 46 ∨ n = 45 ∨ n = 126 ∨ n = 47

/-- Model of `urllib.parse.quote` (percent-encode unsafe UTF-8 bytes). -/
def pyQuote (s : String) : String :=
  ⟨(s.toUTF8.toList.map (fun b =>
      if quoteSafe b then [Char.ofNat b.toNat]
      else ['%', hexChar (b.toNat / 16), hexChar (b.toNat % 16)])).flatten⟩

/-- The fixed 12-color palette of `generate_fallback_cover`
(gemini_service.py lines 90-93). -/
def cover_colors : List String :=
  ["667eea", "764ba2", "f093fb", "f5576c", "4facfe", "43e97b",
   "38ef7d", "eea2a2", "bbc1c1", "57c6e1", "b721ff", "21d4fd"]

/-- The background color chosen by `generate_fallback_cover`:
`colors[hash(title.lower()) % len(colors)]` (lines 94-95). -/
def fallbackColor (h : String → Int) (title : String) : String :=
  cover_colors.getD ((h (pyLower title)) % (cover_colors.length : Int)).toNat "4A5568"

/-- `GeminiService.generate_fallback_cover` (lines 86-103).  The body of
the Python `try` consists of total string operations, so the
`except` branch that would return the generic placeholder is
unreachable and the function never raises. -/
def generate_fallback_cover (h : String → Int) (title author : String) : String :=
  "https://via.placeholder.com/300x400/" ++ fallbackColor h title ++
  "/ffffff.png?text=" ++ pyQuote (strTake title 20) ++ "%0A%0A" ++
  pyQuote (strTake author 15)

/-- The per-book cover resolution of `generate_recommendations`
(lines 382-386): take the web lookup's URL when truthy, otherwise the
deterministic fallback cover.  `fetch_book_cover` (lines 50-84) wraps all
of its network interaction in a catch-all `try` and returns `None` on any
failure, so it is modelled as an oracle returning an optional URL. -/
def resolve_cover (h : String → Int) (cov : String → String → Option String)
    (title author : String) : String :=
  match cov title author with
  | some u => if u = "" then generate_fallback_cover h title author else u
  | none => generate_fallback_cover h title author

/-- The 30 rotating title descriptors of `generate_synthetic_books`
(lines 512-519). -/
def descriptors : List String :=
  ["Essential", "Complete", "Definitive", "Ultimate", "Comprehensive",
   "Classic", "Modern", "Contemporary", "Bestselling", "Award-Winning",
   "Popular", "Acclaimed", "Renowned", "Important", "Influential",
   "Timeless", "Notable", "Masterpiece", "Groundbreaking", "Revolutionary",
   "Epic", "Legendary", "Famous", "Celebrated", "Distinguished",
   "Outstanding", "Exceptional", "Remarkable", "Unforgettable", "Iconic"]

/-- Language detection of `generate_synthetic_books` (lines 433-450). -/
def detectLanguage (query_lower : String) : String :=
  if strContains query_lower "marathi" then "Marathi"
  else if strContains query_lower "hindi" then "Hindi"
  else if strContains query_lower "gujarati" then "Gujarati"
  else if strContains query_lower "spanish" then "Spanish"
  else if strContains query_lower "french" then "French"
  else if strContains query_lower "german" then "German"
  else if strContains query_lower "tamil" then "Tamil"
  else if strContains query_lower "telugu" then "Telugu"
  else "English"

/-- Genre detection of `generate_synthetic_books` (lines 452-507):
multi-word genres first, then generic single-word ones. -/
def detectGenre (query_lower : String) : String :=
  if strContains query_lower "science fiction" ∨ strContains query_lower "sci-fi" then
    "Science Fiction"
  else if strContains query_lower "historical biography" ∨
      strContains query_lower "freedom fighter" ∨
      strContains query_lower "independence" then "Historical Biography"
  else if strContains query_lower "historical fiction" then "Historical Fiction"
  else if strContains query_lower "true crime" then "True Crime"
  else if strContains query_lower "young adult" ∨ strContains query_lower "ya" then
    "Young Adult (YA)"
  else if strContains query_lower "graphic novel" then "Graphic Novel"
  else if strContains query_lower "self-help" ∨
      strContains query_lower "self improvement" then "Self-Help"
  else if strContains query_lower "horror" ∨ strContains query_lower "scary" ∨
      strContains query_lower "ghost" then "Horror"
  else if strContains query_lower "romance" ∨
      strContains query_lower "love story" then "Romance"
  else if strContains query_lower "mystery" ∨
      strContains query_lower "detective" then "Mystery"
  else if strContains query_lower "crime" then "Crime Fiction"
  else if strContains query_lower "thriller" ∨
      strContains query_lower "suspense" then "Thriller/Suspense"
  else if strContains query_lower "biography" ∨
      strContains query_lower "memoir" then "Biography/Memoir"
  else if strContains query_lower "history" ∨
      strContains query_lower "historical" then "History"
  else if strContains query_lower "fantasy" ∨ strContains query_lower "magic" then
    "Fantasy"
  else if strContains query_lower "dystopian" ∨
      strContains query_lower "apocalyptic" then "Dystopian"
  else if strContains query_lower "adventure" ∨ strContains query_lower "quest" then
    "Adventure"
  else if strContains query_lower "comedy" ∨ strContains query_lower "humor" ∨
      strContains query_lower "funny" then "Comedy/Humor"
  else if strContains query_lower "philosophy" then "Philosophy"
  else if strContains query_lower "science" then "Science (Non-Fiction)"
  else if strContains query_lower "classic" ∨
      strContains query_lower "literature" then "Classic"
  else if strContains query_lower "children" ∨ strContains query_lower "kids" then
    "Children\x27s Literature"
  else if strContains query_lower "travel" then "Travel"
  else if strContains query_lower "cookbook" ∨ strContains query_lower "recipe" then
    "Cookbook"
  else if strContains query_lower "business" ∨
      strContains query_lower "economics" then "Business/Economics"
  else "General"

/-- The language-keyed author pools (lines 522-526). -/
def author_pools : List (String × List String) :=
  [("Marathi", ["विष्णू खांडेकर", "पु. ल. देशपांडे", "शिवाजी सावंत", "रणजीत देसाई", "अशोक केळकर"]),
   ("Hindi", ["प्रेमचंद", "अमृता प्रीतम", "मोहन राकेश", "भगवतीचरण वर्मा", "यशपाल"]),
   ("English", ["Various Authors", "Anthology Editors", "Collection Curators", "Literary Scholars"])]

/-- Author selection for slot `i` (lines 550-554). -/
def pickAuthor (language : String) (i : Nat) : String :=
  match (author_pools.find? (fun kv => kv.1 = language)).map (fun kv => kv.2) with
  | some pool => pool.getD (i % pool.length) ""
  | none =>
    let pool := ["Various Authors", "Anthology Editors", "Collection Curators", "Literary Scholars"]
    pool.getD (i % pool.length) ""

/-- The collision-retry title `f"{descriptor} {genre} Anthology - Edition {counter}"`
(line 545). -/
def retryTitle (descriptor genre : String) (counter : Nat) : String :=
  descriptor ++ " " ++ genre ++ " Anthology - Edition " ++ natDecimal counter

/-- The `while title_lower in existing_titles` retry loop (lines 542-546),
unrolled on explicit fuel; the counter starts at 2 and increases by one
per collision.  `retryLoop_notMem` below shows that fuel
`existing.length + 1` always suffices, so the fuel-exhausted fallback
branch is never reached. -/
def retryLoop (existing : List String) (descriptor genre : String) :
    Nat → Nat → String
  | 0, counter => retryTitle descriptor genre counter
  | fuel + 1, counter =>
    let t := retryTitle descriptor genre counter
    if pyLower t ∈ existing then retryLoop existing descriptor genre fuel (counter + 1)
    else t

/-- Title uniquification for one synthetic slot (lines 539-546). -/
def ensureUniqueTitle (existing : List String) (primary descriptor genre : String) :
    String :=
  if pyLower primary ∈ existing then
    retryLoop existing descriptor genre (existing.length + 1) 2
  else primary

/-- The synthetic record built for slot `i` (lines 556-595).  `rating` is
the Python float `round(3.8 + (hash(title) % 12)/10, 1)` encoded in
tenths; the `Internet Archive` link branch guarded by
`(2018 + (i % 7)) < 2000` is kept as written (it can never fire). -/
def mkSyntheticBook (h : String → Int) (query language genre descriptor title : String)
    (i : Nat) : Json :=
  let author := pickAuthor language i
  let description :=
    "A carefully curated " ++ pyLower descriptor ++ " collection of " ++
    pyLower genre ++ " works in " ++ language ++ ". " ++
    "This volume perfectly matches your search for \x27" ++ query ++
    "\x27, featuring authentic " ++ pyLower genre ++ " narratives " ++
    "that capture the essence of the genre. Essential reading for enthusiasts and newcomers alike."
  let title_query := pyReplaceChar title ' ' '+'
  let author_query := pyReplaceChar author ' ' '+'
  let book_links :=
    [Json.obj [("source", .str "Amazon"),
               ("url", .str ("https://www.amazon.com/s?k=" ++ title_query))],
     Json.obj [("source", .str "Google Books"),
               ("url", .str ("https://books.google.com/books?q=" ++ title_query ++ "+" ++ author_query))],
     Json.obj [("source", .str "Goodreads"),
               ("url", .str ("https://www.goodreads.com/search?q=" ++ title_query))]]
  let book_links :=
    if 2018 + (i % 7) < 2000 then
      book_links ++
      [Json.obj [("source", .str "Internet Archive"),
                 ("url", .str ("https://archive.org/search?query=" ++ title_query ++ "+" ++ author_query))]]
    else book_links
  Json.obj
    [("title", .str title),
     ("author", .str author),
     ("description", .str description),
     ("genre", .str genre),
     ("language", .str language),
     ("year_published", .num (2018 + ((i : Int) % 7))),
     ("isbn", .str ("978-" ++ natDecimal (1000000000 + ((h (title ++ natDecimal i)) % 999999999)).toNat)),
     ("publisher", .str (if language ≠ "English" then language ++ " Literary Press" else "International Publishers")),
     ("pages", .num (200 + (i : Int) * 15)),
     ("rating", .num (38 + (h title) % 12)),
     ("target_audience", .str (if genre ∈ ["Horror", "Romance", "Thriller/Suspense"] then "adult" else "general")),
     ("book_type", .str (if genre ∈ ["Biography/Memoir", "History", "Science (Non-Fiction)", "Historical Biography"] then "non_fiction" else "fiction")),
     ("content_type", .str (if strContains (pyLower title) "collection" ∨ strContains (pyLower title) "anthology" then "anthology" else "novel")),
     ("reading_level", .str "intermediate"),
     ("book_links", .arr book_links)]

/-- One iteration of the `for i in range(count)` loop of
`generate_synthetic_books` (lines 529-595), threading the mutable
`existing_titles` set (modelled as a list; only membership is used). -/
def synthStep (h : String → Int) (query language genre : String)
    (st : List String × List Json) (i : Nat) : List String × List Json :=
  let existing := st.1
  let descriptor := descriptors.getD (i % descriptors.length) ""
  let volume_num := i / descriptors.length + 1
  let primary :=
    if language ≠ "English" then
      descriptor ++ " " ++ language ++ " " ++ genre ++ " - Volume " ++ natDecimal volume_num
    else
      "The " ++ descriptor ++ " " ++ genre ++ " Collection - Volume " ++ natDecimal volume_num
  let title := ensureUniqueTitle existing primary descriptor genre
  (existing ++ [pyLower title],
   st.2 ++ [mkSyntheticBook h query language genre descriptor title i])

/-- `GeminiService.generate_synthetic_books` (lines 422-598). -/
def generate_synthetic_books (h : String → Int) (query : String) (count : Nat)
    (existing_titles : List String) : List Json :=
  let query_lower := pyLower query
  let language := detectLanguage query_lower
  let genre := detectGenre query_lower
  ((List.range count).foldl (synthStep h query language genre)
    (existing_titles, [])).2

/-- `app/models/book.py` `Book` (pydantic model): three required string
fields, the rest optional with default `None`; unknown keys are ignored.
The float `rating` is modelled as an integer (see the header comment). -/
structure Book where
  title : String
  author : String
  description : String
  genre : Option String
  year_published : Option Int
  rating : Option Int
  cover_image_url : Option String
  language : Option String
  target_audience : Option String
  book_type : Option String
  content_type : Option String
  reading_level : Option String
deriving Repr, DecidableEq

/-- `app/models/book.py` `BookRecommendationResponse`; the
`generated_at` timestamp is threaded in as a parameter `now`. -/
structure BookRecommendationResponse where
  query : String
  recommendations : List Book
  generated_at : Nat
  total_count : Nat
deriving Repr, DecidableEq

/-- Pydantic validation of a required `str` field. -/
def reqStr (v : Option Json) : Option String :=
  match v with
  | some (.str s) => some s
  | _ => none

/-- Pydantic validation of an `Optional[str]` field. -/
def optStr (v : Option Json) : Option (Option String) :=
  match v with
  | none => some none
  | some .null => some none
  | some (.str s) => some (some s)
  | some _ => none

/-- Pydantic validation of an `Optional[int]` / `Optional[float]` field. -/
def optNum (v : Option Json) : Option (Option Int) :=
  match v with
  | none => some none
  | some .null => some none
  | some (.num n) => some (some n)
  | some _ => none

/-- `Book(**book_data)`: pydantic validation of the candidate record;
`none` models a `ValidationError`. -/
def bookFromData (fields : List (String × Json)) : Option Book :=
  match reqStr (lookupKey fields "title") with
  | none => none
  | some title =>
  match reqStr (lookupKey fields "author") with
  | none => none
  | some author =>
  match reqStr (lookupKey fields "description") with
  | none => none
  | some description =>
  match optStr (lookupKey fields "genre") with
  | none => none
  | some genre =>
  match optNum (lookupKey fields "year_published") with
  | none => none
  | some year_published =>
  match optNum (lookupKey fields "rating") with
  | none => none
  | some rating =>
  match optStr (lookupKey fields "cover_image_url") with
  | none => none
  | some cover_image_url =>
  match optStr (lookupKey fields "language") with
  | none => none
  | some language =>
  match optStr (lookupKey fields "target_audience") with
  | none => none
  | some target_audience =>
  match optStr (lookupKey fields "book_type") with
  | none => none
  | some book_type =>
  match optStr (lookupKey fields "content_type") with
  | none => none
  | some content_type =>
  match optStr (lookupKey fields "reading_level") with
  | none => none
  | some reading_level =>
    some ⟨title, author, description, genre, year_published, rating,
          cover_image_url, language, target_audience, book_type,
          content_type, reading_level⟩

/-- The per-candidate body of the conversion loop (lines 375-399): resolve
a cover, write it into the record, normalize the filter fields, construct
the `Book`.  Any exception in the body is caught and the candidate is
dropped (`continue`), which `none` models.  When title or author is not a
string the cover lookup still runs in Python (its argument is only
interpolated into URLs) but `Book` validation then fails on that same
field, so the record is dropped either way. -/
def buildBook (h : String → Int) (cov : String → String → Option String)
    (bd : Json) : Option Book :=
  match bd with
  | .obj fields =>
    match (lookupKey fields "title").getD (.str ""),
          (lookupKey fields "author").getD (.str "") with
    | .str t, .str a =>
      let cover_url := resolve_cover h cov t a
      let fields2 := setKey fields "cover_image_url" (.str cover_url)
      match validate_and_normalize_filters fields2 with
      | .error _ => none
      | .ok fields3 => bookFromData fields3
    | _, _ => none
  | _ => none

/-- `book.get('title', '').lower()` on one candidate, as evaluated by the
`existing_titles` set comprehension (line 302). -/
def pyTitleLower (j : Json) : Except PyErr String :=
  match j with
  | .obj fields =>
    match (lookupKey fields "title").getD (.str "") with
    | .str s => .ok (pyLower s)
    | _ => .error (.attributeError "object has no attribute lower")
  | _ => .error (.attributeError "object has no attribute get")

/-- `set(book.get('title', '').lower() for book in books_data)`; the set
is modelled as a list, of which only membership is consumed. -/
def pyTitlesLower : List Json → Except PyErr (List String)
  | [] => .ok []
  | j :: js =>
    match pyTitleLower j with
    | .error e => .error e
    | .ok t =>
      match pyTitlesLower js with
      | .error e => .error e
      | .ok ts => .ok (t :: ts)

/-- The shortage check, synthetic augmentation and exact-count truncation
of the happy parse path (lines 295-318). -/
def truncAugmentStage (h : String → Int) (query : String) (n : Int)
    (xs : List Json) : Except PyErr Json :=
  if (xs.length : Int) < n then
    match pyTitlesLower xs with
    | .error e => .error e
    | .ok existing =>
      let synth := generate_synthetic_books h query (n - xs.length).toNat existing
      .ok (.arr (pySliceTo (xs ++ synth) n))
  else .ok (.arr (pySliceTo xs n))

/-- The fixed repair instruction (line 344), carrying at most the first
1000 characters of the text being repaired. -/
def fixPromptOf (content : String) : String :=
  "Fix this malformed JSON and return ONLY valid JSON array with no extra text:\n" ++
  strTake content 1000

/-- The parse stage (lines 284-371): direct parse requiring a list, else —
only on a `JSONDecodeError` — greedy bracket extraction and reparse, else
one repair round-trip through the model oracle `fix`; a syntactically
valid non-list value raises `ValueError`, which no `except` clause in the
function catches. -/
def parseStage (h : String → Int) (fix : String → String) (query : String)
    (n : Int) (content : String) : Except PyErr Json :=
  match loads content with
  | some (Json.arr xs) => truncAugmentStage h query n xs
  | some _ => .error (.valueError "Response must be a JSON array")
  | none =>
    let pair : String × Option Json :=
      match extractBracket content with
      | some span => (span, loads span)
      | none => (content, none)
    match pair.2 with
    | some j => .ok j
    | none =>
      let fixed := cleanContent (fix (fixPromptOf pair.1))
      match loads fixed with
      | some j => .ok j
      | none =>
        .error (.httpError 500 "Failed to parse Gemini response as JSON after multiple attempts")

/-- Python `books_data[:max_recommendations]` at line 375, where
`books_data` is whatever the parse stage produced: slicing a string
yields its characters as one-character strings, slicing a non-sequence
raises `TypeError`. -/
def pySliceJson (bd : Json) (n : Int) : Except PyErr (List Json) :=
  match bd with
  | .arr xs => .ok (pySliceTo xs n)
  | .str s => .ok ((pySliceTo s.data n).map (fun c => Json.str ⟨[c]⟩))
  | _ => .error (.typeError "object is not subscriptable")

/-- The conversion loop and response assembly (lines 373-413). -/
def finishStage (h : String → Int) (cov : String → String → Option String)
    (query : String) (n : Int) (now : Nat) (bd : Json) :
    Except PyErr BookRecommendationResponse :=
  match pySliceJson bd n with
  | .error e => .error e
  | .ok sliced =>
    let books := sliced.filterMap (buildBook h cov)
    if books.isEmpty then
      .error (.httpError 500 "No valid book recommendations could be generated")
    else .ok ⟨query, books, now, books.length⟩

/-- Outcome of one model identifier in the fallback list: usable response
text, a safety block (`finish_reason == 2` with no text), or any other
exception from the call. -/
inductive ModelOutcome where
  | text (s : String)
  | safetyBlocked
  | transportError (msg : String)

/-- The user-facing content-policy error raised when the last identifier
is safety-blocked (lines 242-245). -/
def policyDetail (query : String) : String :=
  "Unable to generate recommendations for \x27" ++ query ++
  "\x27. This query triggers content safety filters. Try alternative search terms like \x27thriller\x27, \x27mystery\x27, or \x27suspense\x27."

/-- The `for model_name in model_names` loop (lines 180-259) for a given
query: break with the first response text; on a safety block or transport
error advance to the next identifier, except on the last identifier,
where a safety block raises the 400 `HTTPException` and a transport error
re-raises the underlying exception. -/
def modelLoop (query : String) : List ModelOutcome → Except PyErr (Option String)
  | [] => .ok none
  | [o] =>
    match o with
    | .text s => .ok (some s)
    | .safetyBlocked => .error (.httpError 400 (policyDetail query))
    | .transportError msg => .error (.pyExc msg)
  | o :: rest =>
    match o with
    | .text s => .ok (some s)
    | .safetyBlocked => modelLoop query rest
    | .transportError _ => modelLoop query rest

/-- The catch-all `except Exception` at lines 415-420: every exception
escaping the body — `HTTPException`s included, since `HTTPException`
subclasses `Exception` — is replaced by a generic 500 error wrapping its
string rendering. -/
def wrap500 {α : Type} (r : Except PyErr α) : Except PyErr α :=
  match r with
  | .ok a => .ok a
  | .error e => .error (.httpError 500 ("Error generating recommendations: " ++ pyErrStr e))

/-- The body of the outer `try` of `generate_recommendations`
(lines 172-413). -/
def genRecsBody (h : String → Int) (cov : String → String → Option String)
    (fix : String → String) (o1 o2 : ModelOutcome) (now : Nat)
    (user_query : String) (n : Int) : Except PyErr BookRecommendationResponse :=
  match modelLoop user_query [o1, o2] with
  | .error e => .error e
  | .ok none =>
    .error (.httpError 500 "Unable to generate recommendations - all models failed or were blocked")
  | .ok (some content0) =>
    if content0 = "" then
      .error (.httpError 500 "Unable to generate recommendations - all models failed or were blocked")
    else
      match parseStage h fix user_query n (cleanContent content0) with
      | .error e => .error e
      | .ok bd => finishStage h cov user_query n now bd

/-- `GeminiService.generate_recommendations` (lines 156-420).  The two
entries of the fixed `model_names` list are represented by the outcomes
`o1`, `o2`; `apiKeyConfigured` models `settings.gemini_api_key` being
set (its check precedes the outer `try`, so that error is not wrapped). -/
def generate_recommendations (h : String → Int)
    (cov : String → String → Option String) (fix : String → String)
    (o1 o2 : ModelOutcome) (apiKeyConfigured : Bool) (now : Nat)
    (user_query : String) (max_recommendations : Int) :
    Except PyErr BookRecommendationResponse :=
  if ¬ apiKeyConfigured then
    .error (.httpError 500 "Gemini API key not configured")
  else
    wrap500 (genRecsBody h cov fix o1 o2 now user_query max_recommendations)

/-- `BookRecommendationRequest.requested_count` (app/models/book.py
lines 46-49): the Python expression `self.count or self.max_recommendations
or 20`, under integer truthiness (`None` and `0` are falsy). -/
def requested_count (count max_recommendations : Option Int) : Int :=
  match count with
  | some c =>
    if c ≠ 0 then c
    else
      match max_recommendations with
      | some m => if m ≠ 0 then m else 20
      | none => 20
  | none =>
    match max_recommendations with
    | some m => if m ≠ 0 then m else 20
    | none => 20

/-- The router-level cap `min(request.requested_count, 150)`
(app/routers/books.py line 41). -/
def router_max_recs (count max_recommendations : Option Int) : Int :=
  min (requested_count count max_recommendations) 150

/-- The in-memory cache of `app/routers/recommendations.py`: dict entries
`key ↦ (books, timestamp)` in insertion order. -/
abbrev CacheEntries (α : Type) : Type := List (String × α × Int)

/-- `CACHE[cache_key] = (books, time.time())`: overwrite in place or append. -/
def cacheInsert {α : Type} (c : CacheEntries α) (key : String) (books : α)
    (now : Int) : CacheEntries α :=
  if c.any (fun e => e.1 = key) then
    c.map (fun e => if e.1 = key then (key, books, now) else e)
  else c ++ [(key, books, now)]

/-- `min(CACHE.keys(), key=lambda k: CACHE[k][1])`: the first key (in
insertion order) attaining the minimal timestamp. -/
def oldestKey {α : Type} (c : CacheEntries α) : Option String :=
  (c.foldl (fun acc e =>
    match acc with
    | none => some (e.1, e.2.2)
    | some (k, t) => if e.2.2 < t then some (e.1, e.2.2) else some (k, t)) none).map
    (fun kt => kt.1)

/-- What the body of `cache_books` (recommendations.py lines 45-52) would
do if its `time.time()` call resolved: insert/overwrite, then evict the
single oldest entry when the size exceeds 100. -/
def cache_books_logic {α : Type} (c : CacheEntries α) (key : String) (books : α)
    (now : Int) : CacheEntries α :=
  let c1 := cacheInsert c key books now
  if 100 < c1.length then
    match oldestKey c1 with
    | some ok1 => c1.eraseP (fun e => e.1 = ok1)
    | none => c1
  else c1

/-- `cache_books` as it actually executes: `app/routers/recommendations.py`
never imports `time`, so the very first expression
`CACHE[cache_key] = (books, time.time())` raises
`NameError: name 'time' is not defined` before any entry is inserted
or evicted. -/
def cache_books {α : Type} (c : CacheEntries α) (key : String) (books : α) :
    Except PyErr (CacheEntries α) :=
  .error (.nameError "name \x27time\x27 is not defined")


/-- Does an optional field value pass pydantic validation for `Optional[str]`
and survive normalization (absent, JSON null, or a string)? -/
def okClassVal : Option Json → Bool
  | none => true
  | some .null => true
  | some (.str _) => true
  | some _ => false

/-- Does an optional field value pass pydantic validation for
`Optional[int]` / `Optional[float]`? -/
def okNumVal : Option Json → Bool
  | none => true
  | some .null => true
  | some (.num _) => true
  | some _ => false

/-- Is the field a present string (as required for `title` / `author` /
`description`)? -/
def isReqStr : Option Json → Bool
  | some (.str _) => true
  | _ => false

/-- A candidate record on which the per-book conversion (cover resolution,
normalization, `Book(**data)`) is guaranteed to succeed. -/
def wellFormedCandidate : Json → Bool
  | .obj fields =>
    isReqStr (lookupKey fields "title") &&
    isReqStr (lookupKey fields "author") &&
    isReqStr (lookupKey fields "description") &&
    okClassVal (lookupKey fields "genre") &&
    okNumVal (lookupKey fields "year_published") &&
    okNumVal (lookupKey fields "rating") &&
    okClassVal (lookupKey fields "language") &&
    okClassVal (lookupKey fields "target_audience") &&
    okClassVal (lookupKey fields "book_type") &&
    okClassVal (lookupKey fields "content_type") &&
    okClassVal (lookupKey fields "reading_level")
  | _ => false

/-- The title of a candidate record, when it is an object with a string
title. -/
def synthTitle : Json → Option String
  | .obj fields =>
    match lookupKey fields "title" with
    | some (.str s) => some s
    | _ => none
  | _ => none

/-- The lowercased titles of the records in a candidate list. -/
def titleLowers (books : List Json) : List String :=
  books.filterMap (fun j => (synthTitle j).map pyLower)

theorem synthTitle_mk (h : String → Int) (query language genre descriptor title : String)
    (i : Nat) :
    synthTitle (mkSyntheticBook h query language genre descriptor title i) = some title := by
  rfl

theorem wellFormed_mk (h : String → Int) (query language genre descriptor title : String)
    (i : Nat) :
    wellFormedCandidate (mkSyntheticBook h query language genre descriptor title i) = true := by
  rfl

/-- Invariant carried through the `for i in range(count)` loop of
`generate_synthetic_books`. -/
def synthInv (existing0 : List String) (st : List String × List Json) : Prop :=
  st.1 = existing0 ++ titleLowers st.2 ∧
  (titleLowers st.2).Nodup ∧
  (∀ t ∈ titleLowers st.2, t ∉ existing0) ∧
  (titleLowers st.2).length = st.2.length ∧
  (∀ b ∈ st.2, wellFormedCandidate b = true)

theorem natDigitsGo_congr : ∀ (n fuel fuel2 : Nat), n ≤ fuel → n ≤ fuel2 →
    natDigitsGo fuel n = natDigitsGo fuel2 n := by
  intro n
  induction n using Nat.strong_induction_on with
  | _ n ih =>
    intro fuel fuel2 h1 h2
    match fuel, fuel2 with
    | 0, 0 => rfl
    | 0, f2 + 1 =>
      have h0 : n = 0 := by omega
      subst h0
      simp [natDigitsGo]
    | f1 + 1, 0 =>
      have h0 : n = 0 := by omega
      subst h0
      simp [natDigitsGo]
    | f1 + 1, f2 + 1 =>
      rw [natDigitsGo, natDigitsGo]
      by_cases h10 : n < 10
      · rw [if_pos h10, if_pos h10]
      · rw [if_neg h10, if_neg h10]
        have hlt : n / 10 < n := Nat.div_lt_self (by omega) (by omega)
        rw [ih (n / 10) hlt f1 f2 (by omega) (by omega)]

theorem natDigits_unfold (n : Nat) :
    natDigits n = if n < 10 then [n] else natDigits (n / 10) ++ [n % 10] := by
  unfold natDigits
  cases n with
  | zero => simp [natDigitsGo]
  | succ m =>
    rw [natDigitsGo]
    by_cases h10 : m + 1 < 10
    · rw [if_pos h10, if_pos h10]
    · rw [if_neg h10, if_neg h10]
      have hlt : (m + 1) / 10 < m + 1 := Nat.div_lt_self (by omega) (by omega)
      rw [natDigitsGo_congr ((m + 1) / 10) m ((m + 1) / 10) (by omega) (le_refl _)]

theorem natDigits_lt10 (n : Nat) : ∀ d ∈ natDigits n, d < 10 := by
  induction n using Nat.strong_induction_on with
  | _ n ih =>
    rw [natDigits_unfold]
    split
    · intro d hd
      simp only [List.mem_singleton] at hd
      omega
    · intro d hd
      rcases List.mem_append.1 hd with h1 | h2
      · exact ih (n / 10) (Nat.div_lt_self (by omega) (by omega)) d h1
      · simp only [List.mem_singleton] at h2
        omega

theorem foldl_natDigits (n : Nat) : ∀ acc : Nat,
    (natDigits n).foldl (fun a d => a * 10 + d) acc =
      acc * 10 ^ (natDigits n).length + n := by
  induction n using Nat.strong_induction_on with
  | _ n ih =>
    intro acc
    rw [natDigits_unfold]
    split
    · simp
    · rw [List.foldl_append, List.length_append,
        ih (n / 10) (Nat.div_lt_self (by omega) (by omega)) acc]
      simp only [List.foldl_cons, List.foldl_nil, List.length_singleton]
      rw [pow_succ]
      have hmod := Nat.div_add_mod n 10
      ring_nf
      omega

theorem natDigits_inj {m n : Nat} (h : natDigits m = natDigits n) : m = n := by
  have hm := foldl_natDigits m 0
  have hn := foldl_natDigits n 0
  rw [h] at hm
  omega

theorem charDigit_inj : ∀ a, a < 10 → ∀ b, b < 10 →
    Char.ofNat (48 + a) = Char.ofNat (48 + b) → a = b := by decide

theorem digitsChar_map_inj : ∀ xs ys : List Nat, (∀ x ∈ xs, x < 10) →
    (∀ y ∈ ys, y < 10) →
    xs.map (fun d => Char.ofNat (48 + d)) = ys.map (fun d => Char.ofNat (48 + d)) →
    xs = ys := by
  intro xs
  induction xs with
  | nil =>
    intro ys _ _ h
    cases ys with
    | nil => rfl
    | cons y ys => simp at h
  | cons x xs ih =>
    intro ys hx hy h
    cases ys with
    | nil => simp at h
    | cons y ys =>
      simp only [List.map_cons, List.cons.injEq] at h
      have hx0 : x = y :=
        charDigit_inj x (hx x (by simp)) y (hy y (by simp)) h.1
      have := ih ys (fun a ha => hx a (by simp [ha])) (fun a ha => hy a (by simp [ha])) h.2
      rw [hx0, this]

theorem natDecimal_inj {m n : Nat} (h : natDecimal m = natDecimal n) : m = n := by
  apply natDigits_inj
  exact digitsChar_map_inj _ _ (natDigits_lt10 m) (natDigits_lt10 n)
    (congrArg String.data h)

theorem toLower_digit : ∀ d, d < 10 →
    Char.toLower (Char.ofNat (48 + d)) = Char.ofNat (48 + d) := by decide

theorem pyLower_natDecimal (n : Nat) : pyLower (natDecimal n) = natDecimal n := by
  unfold pyLower natDecimal
  apply String.ext
  show ((natDigits n).map _).map _ = (natDigits n).map _
  rw [List.map_map]
  exact List.map_congr_left (fun d hd => toLower_digit d (natDigits_lt10 n d hd))

theorem pyLower_append (a b : String) : pyLower (a ++ b) = pyLower a ++ pyLower b := by
  apply String.ext
  show (a ++ b).data.map _ = (pyLower a ++ pyLower b).data
  rw [String.data_append, String.data_append, List.map_append]
  rfl

theorem pyLower_retryTitle (d g : String) (c : Nat) :
    pyLower (retryTitle d g c) =
      pyLower (d ++ " " ++ g ++ " Anthology - Edition ") ++ natDecimal c := by
  unfold retryTitle
  rw [pyLower_append, pyLower_natDecimal]

theorem retryTitle_lower_inj (d g : String) :
    Function.Injective (fun c => pyLower (retryTitle d g c)) := by
  intro a b h
  simp only [pyLower_retryTitle] at h
  apply natDecimal_inj
  apply String.ext
  have hd := congrArg String.data h
  rw [String.data_append, String.data_append] at hd
  exact List.append_cancel_left hd

theorem retryTitle_escape (existing : List String) (d g : String) (counter : Nat) :
    ∃ j < existing.length + 1,
      pyLower (retryTitle d g (counter + j)) ∉ existing := by
  by_contra hall
  push_neg at hall
  set F := existing.length + 1 with hF
  set L := (List.range F).map (fun j => pyLower (retryTitle d g (counter + j))) with hL
  have hnodup : L.Nodup := by
    apply List.Nodup.map _ (List.nodup_range F)
    intro a b hab
    have := retryTitle_lower_inj d g hab
    omega
  have hsub : L ⊆ existing := by
    intro x hx
    rw [hL, List.mem_map] at hx
    obtain ⟨j, hj, hxeq⟩ := hx
    rw [List.mem_range] at hj
    rw [← hxeq]
    exact hall j hj
  have := (List.subperm_of_subset hnodup hsub).length_le
  rw [hL, List.length_map, List.length_range] at this
  omega

theorem retryLoop_notMem (d g : String) :
    ∀ (fuel : Nat) (existing : List String) (counter : Nat),
      (∃ j < fuel, pyLower (retryTitle d g (counter + j)) ∉ existing) →
      pyLower (retryLoop existing d g fuel counter) ∉ existing := by
  intro fuel
  induction fuel with
  | zero =>
    intro existing counter h
    obtain ⟨j, hj, _⟩ := h
    omega
  | succ fuel ih =>
    intro existing counter h
    rw [retryLoop]
    split
    · rename_i hmem
      apply ih existing (counter + 1)
      obtain ⟨j, hj, hfree⟩ := h
      cases j with
      | zero => simp at hfree; exact absurd hmem hfree
      | succ j' =>
        refine ⟨j', by omega, ?_⟩
        have : counter + 1 + j' = counter + (j' + 1) := by omega
        rw [this]
        exact hfree
    · rename_i hmem
      exact hmem

theorem ensureUniqueTitle_notMem (existing : List String)
    (primary d g : String) :
    pyLower (ensureUniqueTitle existing primary d g) ∉ existing := by
  unfold ensureUniqueTitle
  split
  · apply retryLoop_notMem
    obtain ⟨j, hj, hfree⟩ := retryTitle_escape existing d g 2
    exact ⟨j, hj, hfree⟩
  · rename_i hmem
    exact hmem

theorem synthStep_inv (h : String → Int) (query language genre : String)
    (existing0 : List String) (st : List String × List Json) (i : Nat)
    (hinv : synthInv existing0 st) :
    synthInv existing0 (synthStep h query language genre st i) := by
  obtain ⟨h1, h2, h3, h4, h5⟩ := hinv
  unfold synthStep
  set descriptor := descriptors.getD (i % descriptors.length) "" with hdesc
  set primary :=
    (if language ≠ "English" then
      descriptor ++ " " ++ language ++ " " ++ genre ++ " - Volume " ++
        natDecimal (i / descriptors.length + 1)
    else
      "The " ++ descriptor ++ " " ++ genre ++ " Collection - Volume " ++
        natDecimal (i / descriptors.length + 1)) with hprim
  set title := ensureUniqueTitle st.1 primary descriptor genre with htitle
  have hfree : pyLower title ∉ st.1 := by
    rw [htitle]
    exact ensureUniqueTitle_notMem st.1 primary descriptor genre
  rw [h1, List.mem_append] at hfree
  push_neg at hfree
  have htl : titleLowers (st.2 ++ [mkSyntheticBook h query language genre descriptor title i]) =
      titleLowers st.2 ++ [pyLower title] := by
    unfold titleLowers
    rw [List.filterMap_append]
    simp [synthTitle_mk]
  constructor
  · show st.1 ++ [pyLower title] = existing0 ++ _
    rw [htl, h1, List.append_assoc]
  refine ⟨?_, ?_, ?_, ?_⟩
  · show (titleLowers (st.2 ++ [_])).Nodup
    rw [htl, List.nodup_append]
    refine ⟨h2, List.nodup_singleton _, ?_⟩
    intro a ha hamem
    simp only [List.mem_singleton] at hamem
    exact hfree.2 (hamem ▸ ha)
  · show ∀ t ∈ titleLowers (st.2 ++ [_]), t ∉ existing0
    rw [htl]
    intro t ht
    rcases List.mem_append.1 ht with hh | hh
    · exact h3 t hh
    · simp only [List.mem_singleton] at hh
      rw [hh]
      exact hfree.1
  · show (titleLowers (st.2 ++ [_])).length = (st.2 ++ [_]).length
    rw [htl, List.length_append, List.length_append, h4]
    simp
  · show ∀ b ∈ st.2 ++ [_], wellFormedCandidate b = true
    intro b hb
    rcases List.mem_append.1 hb with hh | hh
    · exact h5 b hh
    · simp only [List.mem_singleton] at hh
      rw [hh]
      exact wellFormed_mk ..

theorem synthFold_inv (h : String → Int) (query language genre : String)
    (existing0 : List String) :
    ∀ (idxs : List Nat) (st : List String × List Json),
      synthInv existing0 st →
      synthInv existing0 (idxs.foldl (synthStep h query language genre) st) ∧
      (idxs.foldl (synthStep h query language genre) st).2.length =
        st.2.length + idxs.length := by
  intro idxs
  induction idxs with
  | nil =>
    intro st hst
    exact ⟨hst, by simp⟩
  | cons i idxs ih =>
    intro st hst
    have hstep := synthStep_inv h query language genre existing0 st i hst
    obtain ⟨hinv, hlen⟩ := ih _ hstep
    refine ⟨hinv, ?_⟩
    rw [List.foldl_cons, hlen]
    have : (synthStep h query language genre st i).2.length = st.2.length + 1 := by
      unfold synthStep
      simp
    rw [this]
    simp [List.length_cons]
    omega

theorem generate_synthetic_props (h : String → Int) (query : String) (count : Nat)
    (existing_titles : List String) :
    (generate_synthetic_books h query count existing_titles).length = count ∧
    (titleLowers (generate_synthetic_books h query count existing_titles)).length = count ∧
    (titleLowers (generate_synthetic_books h query count existing_titles)).Nodup ∧
    (∀ t ∈ titleLowers (generate_synthetic_books h query count existing_titles),
      t ∉ existing_titles) ∧
    (∀ b ∈ generate_synthetic_books h query count existing_titles,
      wellFormedCandidate b = true) := by
  have hbase : synthInv existing_titles (existing_titles, ([] : List Json)) := by
    refine ⟨by simp [titleLowers], by simp [titleLowers], ?_, by simp [titleLowers], ?_⟩
    · intro t ht
      simp [titleLowers] at ht
    · intro b hb
      simp at hb
  obtain ⟨⟨i1, i2, i3, i4, i5⟩, hlen⟩ :=
    synthFold_inv h query (detectLanguage (pyLower query)) (detectGenre (pyLower query))
      existing_titles (List.range count) (existing_titles, []) hbase
  simp only [List.length_range] at hlen
  have hgen : generate_synthetic_books h query count existing_titles =
      ((List.range count).foldl
        (synthStep h query (detectLanguage (pyLower query)) (detectGenre (pyLower query)))
        (existing_titles, [])).2 := rfl
  rw [hgen]
  have hlen2 : ((List.range count).foldl
      (synthStep h query (detectLanguage (pyLower query)) (detectGenre (pyLower query)))
      (existing_titles, [])).2.length = count := by
    rw [hlen]
    simp
  exact ⟨hlen2, by rw [i4]; exact hlen2, i2, i3, i5⟩

theorem normLanguage_str (s : String) :
    normLanguage (some (.str s)) =
      if s ∈ valid_languages then .ok s
      else
        match valid_languages.find? (fun vl => pyLower vl = pyLower s) with
        | some vl => .ok vl
        | none => .ok "English" := rfl

theorem normLanguage_str_ok (s : String) :
    ∃ v, normLanguage (some (.str s)) = .ok v ∧ v ∈ valid_languages := by
  rw [normLanguage_str]
  split
  · next hmem => exact ⟨s, rfl, hmem⟩
  · cases hfind : valid_languages.find? (fun vl => pyLower vl = pyLower s) with
    | some vl => exact ⟨vl, rfl, List.mem_of_find?_eq_some hfind⟩
    | none => exact ⟨"English", rfl, by decide⟩

theorem normAudience_str (s : String) :
    normAudience (some (.str s)) =
      if s ∈ valid_audiences then .ok s
      else
        match valid_audiences.find? (fun va => va = pyLower s) with
        | some va => .ok va
        | none => .ok "general" := rfl

theorem normAudience_str_ok (s : String) :
    ∃ v, normAudience (some (.str s)) = .ok v ∧ v ∈ valid_audiences := by
  rw [normAudience_str]
  split
  · next hmem => exact ⟨s, rfl, hmem⟩
  · cases hfind : valid_audiences.find? (fun va => va = pyLower s) with
    | some va => exact ⟨va, rfl, List.mem_of_find?_eq_some hfind⟩
    | none => exact ⟨"general", rfl, by decide⟩

theorem bookTypeLoose_mem (low : String) : bookTypeLoose low ∈ valid_book_types := by
  unfold bookTypeLoose
  split
  · decide
  · split
    · decide
    · cases hfind : valid_book_types.find?
          (fun vt => pyReplaceChar vt '_' '-' = low ∨ vt = low) with
      | some vt => simp only [hfind]; exact List.mem_of_find?_eq_some hfind
      | none => simp only [hfind]; decide

theorem normBookType_str (s : String) :
    normBookType (some (.str s)) =
      if s ∈ valid_book_types then .ok s else .ok (bookTypeLoose (pyLower s)) := rfl

theorem normBookType_str_ok (s : String) :
    ∃ v, normBookType (some (.str s)) = .ok v ∧ v ∈ valid_book_types := by
  rw [normBookType_str]
  split
  · next hmem => exact ⟨s, rfl, hmem⟩
  · exact ⟨bookTypeLoose (pyLower s), rfl, bookTypeLoose_mem (pyLower s)⟩

theorem normContentType_str (s : String) :
    normContentType (some (.str s)) =
      if s ∈ valid_content_types then .ok s
      else
        match valid_content_types.find?
            (fun vc => pyReplaceChar vc '_' ' ' = pyLower s ∨ vc = pyLower s) with
        | some vc => .ok vc
        | none => .ok "novel" := rfl

theorem normContentType_str_ok (s : String) :
    ∃ v, normContentType (some (.str s)) = .ok v ∧ v ∈ valid_content_types := by
  rw [normContentType_str]
  split
  · next hmem => exact ⟨s, rfl, hmem⟩
  · cases hfind : valid_content_types.find?
        (fun vc => pyReplaceChar vc '_' ' ' = pyLower s ∨ vc = pyLower s) with
    | some vc => exact ⟨vc, rfl, List.mem_of_find?_eq_some hfind⟩
    | none => exact ⟨"novel", rfl, by decide⟩

theorem normReadingLevel_str (s : String) :
    normReadingLevel (some (.str s)) =
      if s ∈ valid_reading_levels then .ok s
      else
        match valid_reading_levels.find? (fun vr => vr = pyLower s) with
        | some vr => .ok vr
        | none => .ok "intermediate" := rfl

theorem normReadingLevel_str_ok (s : String) :
    ∃ v, normReadingLevel (some (.str s)) = .ok v ∧ v ∈ valid_reading_levels := by
  rw [normReadingLevel_str]
  split
  · next hmem => exact ⟨s, rfl, hmem⟩
  · cases hfind : valid_reading_levels.find? (fun vr => vr = pyLower s) with
    | some vr => exact ⟨vr, rfl, List.mem_of_find?_eq_some hfind⟩
    | none => exact ⟨"intermediate", rfl, by decide⟩

theorem normLanguage_ok (v : Option Json) (hv : okClassVal v = true) :
    ∃ out, normLanguage v = .ok out := by
  match v with
  | none => exact ⟨"English", rfl⟩
  | some .null => exact ⟨"English", rfl⟩
  | some (.str s) =>
    obtain ⟨out, ho, _⟩ := normLanguage_str_ok s
    exact ⟨out, ho⟩
  | some (.bool b) => simp [okClassVal] at hv
  | some (.num n) => simp [okClassVal] at hv
  | some (.arr xs) => simp [okClassVal] at hv
  | some (.obj f) => simp [okClassVal] at hv

theorem normAudience_ok (v : Option Json) (hv : okClassVal v = true) :
    ∃ out, normAudience v = .ok out := by
  match v with
  | none => exact ⟨"general", rfl⟩
  | some .null => exact ⟨"general", rfl⟩
  | some (.str s) =>
    obtain ⟨out, ho, _⟩ := normAudience_str_ok s
    exact ⟨out, ho⟩
  | some (.bool b) => simp [okClassVal] at hv
  | some (.num n) => simp [okClassVal] at hv
  | some (.arr xs) => simp [okClassVal] at hv
  | some (.obj f) => simp [okClassVal] at hv

theorem normBookType_ok (v : Option Json) (hv : okClassVal v = true) :
    ∃ out, normBookType v = .ok out := by
  match v with
  | none => exact ⟨"fiction", rfl⟩
  | some .null => exact ⟨"fiction", rfl⟩
  | some (.str s) =>
    obtain ⟨out, ho, _⟩ := normBookType_str_ok s
    exact ⟨out, ho⟩
  | some (.bool b) => simp [okClassVal] at hv
  | some (.num n) => simp [okClassVal] at hv
  | some (.arr xs) => simp [okClassVal] at hv
  | some (.obj f) => simp [okClassVal] at hv

theorem normContentType_ok (v : Option Json) (hv : okClassVal v = true) :
    ∃ out, normContentType v = .ok out := by
  match v with
  | none => exact ⟨"novel", rfl⟩
  | some .null => exact ⟨"novel", rfl⟩
  | some (.str s) =>
    obtain ⟨out, ho, _⟩ := normContentType_str_ok s
    exact ⟨out, ho⟩
  | some (.bool b) => simp [okClassVal] at hv
  | some (.num n) => simp [okClassVal] at hv
  | some (.arr xs) => simp [okClassVal] at hv
  | some (.obj f) => simp [okClassVal] at hv

theorem normReadingLevel_ok (v : Option Json) (hv : okClassVal v = true) :
    ∃ out, normReadingLevel v = .ok out := by
  match v with
  | none => exact ⟨"intermediate", rfl⟩
  | some .null => exact ⟨"intermediate", rfl⟩
  | some (.str s) =>
    obtain ⟨out, ho, _⟩ := normReadingLevel_str_ok s
    exact ⟨out, ho⟩
  | some (.bool b) => simp [okClassVal] at hv
  | some (.num n) => simp [okClassVal] at hv
  | some (.arr xs) => simp [okClassVal] at hv
  | some (.obj f) => simp [okClassVal] at hv

theorem optStr_of_okClass (v : Option Json) (hv : okClassVal v = true) :
    ∃ w, optStr v = some w := by
  match v with
  | none => exact ⟨none, rfl⟩
  | some .null => exact ⟨none, rfl⟩
  | some (.str s) => exact ⟨some s, rfl⟩
  | some (.bool b) => simp [okClassVal] at hv
  | some (.num n) => simp [okClassVal] at hv
  | some (.arr xs) => simp [okClassVal] at hv
  | some (.obj f) => simp [okClassVal] at hv

theorem optNum_of_okNum (v : Option Json) (hv : okNumVal v = true) :
    ∃ w, optNum v = some w := by
  match v with
  | none => exact ⟨none, rfl⟩
  | some .null => exact ⟨none, rfl⟩
  | some (.num n) => exact ⟨some n, rfl⟩
  | some (.bool b) => simp [okNumVal] at hv
  | some (.str s) => simp [okNumVal] at hv
  | some (.arr xs) => simp [okNumVal] at hv
  | some (.obj f) => simp [okNumVal] at hv

theorem lookup_foldl_no_key (k : String) (l : List (String × Json))
    (acc : Option Json) (h : ∀ kv ∈ l, kv.1 ≠ k) :
    l.foldl (fun acc kv => if kv.1 = k then some kv.2 else acc) acc = acc := by
  induction l generalizing acc with
  | nil => rfl
  | cons kv l ih =>
    rw [List.foldl_cons, if_neg (h kv (by simp))]
    exact ih acc (fun kv2 h2 => h kv2 (by simp [h2]))

theorem lookup_map_upd (k : String) (v : Json) :
    ∀ (f : List (String × Json)) (acc : Option Json),
      f.any (fun kv => kv.1 = k) = true →
      (f.map (fun kv => if kv.1 = k then (k, v) else kv)).foldl
        (fun acc kv => if kv.1 = k then some kv.2 else acc) acc = some v := by
  intro f
  induction f with
  | nil =>
    intro acc hany
    simp at hany
  | cons kv f ih =>
    intro acc hany
    rw [List.map_cons, List.foldl_cons]
    by_cases hk : kv.1 = k
    · rw [if_pos hk]
      show (f.map _).foldl _ (if (k, v).1 = k then some (k, v).2 else acc) = some v
      rw [if_pos rfl]
      by_cases hf : f.any (fun kv => kv.1 = k) = true
      · exact ih (some v) hf
      · apply lookup_foldl_no_key
        intro kv2 hkv2
        rw [List.mem_map] at hkv2
        obtain ⟨kv0, hkv0, heq⟩ := hkv2
        have hne : kv0.1 ≠ k := by
          intro hc
          apply hf
          rw [List.any_eq_true]
          exact ⟨kv0, hkv0, by simp [hc]⟩
        rw [← heq, if_neg hne]
        exact hne
    · rw [if_neg hk]
      show (f.map _).foldl _ (if kv.1 = k then some kv.2 else acc) = some v
      rw [if_neg hk]
      apply ih
      rcases List.any_eq_true.1 hany with ⟨kv0, hkv0, hp⟩
      simp only [decide_eq_true_eq] at hp
      rcases List.mem_cons.1 hkv0 with h0 | h0
      · exact absurd (h0 ▸ hp) hk
      · rw [List.any_eq_true]
        exact ⟨kv0, h0, by simp [hp]⟩

theorem lookupKey_setKey_self (f : List (String × Json)) (k : String) (v : Json) :
    lookupKey (setKey f k v) k = some v := by
  unfold setKey lookupKey
  split
  · next hany => exact lookup_map_upd k v f none hany
  · rw [List.foldl_append]
    simp

theorem lookup_map_upd_ne (k k2 : String) (v : Json) (hne : k2 ≠ k) :
    ∀ (f : List (String × Json)) (acc : Option Json),
      (f.map (fun kv => if kv.1 = k then (k, v) else kv)).foldl
        (fun acc kv => if kv.1 = k2 then some kv.2 else acc) acc =
      f.foldl (fun acc kv => if kv.1 = k2 then some kv.2 else acc) acc := by
  intro f
  induction f with
  | nil => intro acc; rfl
  | cons kv f ih =>
    intro acc
    rw [List.map_cons, List.foldl_cons, List.foldl_cons]
    by_cases hk : kv.1 = k
    · rw [if_pos hk]
      show (f.map _).foldl _ (if (k, v).1 = k2 then some (k, v).2 else acc) = _
      rw [if_neg (by simp; intro hc; exact hne (hc ▸ rfl))]
      rw [if_neg (by rw [hk]; intro hc; exact hne (hc ▸ rfl))]
      exact ih acc
    · rw [if_neg hk]
      exact ih _

theorem lookupKey_setKey_ne (f : List (String × Json)) (k k2 : String) (v : Json)
    (hne : k2 ≠ k) : lookupKey (setKey f k v) k2 = lookupKey f k2 := by
  unfold setKey lookupKey
  split
  · exact lookup_map_upd_ne k k2 v hne f none
  · rw [List.foldl_append]
    show (if (k, v).1 = k2 then some (k, v).2 else _) = _
    rw [if_neg (by simp; intro hc; exact hne (hc ▸ rfl))]

theorem isReqStr_elim (v : Option Json) (hv : isReqStr v = true) :
    ∃ s, v = some (.str s) := by
  match v with
  | some (.str s) => exact ⟨s, rfl⟩
  | none => simp [isReqStr] at hv
  | some .null => simp [isReqStr] at hv
  | some (.bool b) => simp [isReqStr] at hv
  | some (.num n) => simp [isReqStr] at hv
  | some (.arr xs) => simp [isReqStr] at hv
  | some (.obj f) => simp [isReqStr] at hv

theorem validate_ok_shape (fields : List (String × Json))
    (hl : okClassVal (lookupKey fields "language") = true)
    (ha : okClassVal (lookupKey fields "target_audience") = true)
    (hb : okClassVal (lookupKey fields "book_type") = true)
    (hc : okClassVal (lookupKey fields "content_type") = true)
    (hr : okClassVal (lookupKey fields "reading_level") = true) :
    ∃ l a b c r, validate_and_normalize_filters fields =
      .ok (setKey (setKey (setKey (setKey (setKey fields
        "language" (.str l)) "target_audience" (.str a)) "book_type" (.str b))
        "content_type" (.str c)) "reading_level" (.str r)) := by
  obtain ⟨l, hl2⟩ := normLanguage_ok _ hl
  obtain ⟨a, ha2⟩ := normAudience_ok _ ha
  obtain ⟨b, hb2⟩ := normBookType_ok _ hb
  obtain ⟨c, hc2⟩ := normContentType_ok _ hc
  obtain ⟨r, hr2⟩ := normReadingLevel_ok _ hr
  refine ⟨l, a, b, c, r, ?_⟩
  unfold validate_and_normalize_filters
  rw [hl2, ha2, hb2, hc2, hr2]

theorem buildBook_isSome (h : String → Int) (cov : String → String → Option String)
    (j : Json) (hwf : wellFormedCandidate j = true) :
    (buildBook h cov j).isSome = true := by
  match j with
  | .obj fields =>
    unfold wellFormedCandidate at hwf
    simp only [Bool.and_eq_true] at hwf
    obtain ⟨⟨⟨⟨⟨⟨⟨⟨⟨⟨hti, hau⟩, hde⟩, hge⟩, hye⟩, hra⟩, hla⟩, hta⟩, hbt⟩, hct⟩, hrl⟩ := hwf
    obtain ⟨t, ht2⟩ := isReqStr_elim _ hti
    obtain ⟨a, ha2⟩ := isReqStr_elim _ hau
    obtain ⟨d, hd2⟩ := isReqStr_elim _ hde
    set F2 := setKey fields "cover_image_url" (.str (resolve_cover h cov t a)) with hF2
    have hcov2 : ∀ k : String, k ≠ "cover_image_url" →
        lookupKey F2 k = lookupKey fields k := by
      intro k hk
      exact lookupKey_setKey_ne _ _ _ _ hk
    obtain ⟨l, a2, b2, c2, r2, hval⟩ := validate_ok_shape F2
      (by rw [hcov2 _ (by decide)]; exact hla)
      (by rw [hcov2 _ (by decide)]; exact hta)
      (by rw [hcov2 _ (by decide)]; exact hbt)
      (by rw [hcov2 _ (by decide)]; exact hct)
      (by rw [hcov2 _ (by decide)]; exact hrl)
    set F3 := setKey (setKey (setKey (setKey (setKey F2
      "language" (.str l)) "target_audience" (.str a2)) "book_type" (.str b2))
      "content_type" (.str c2)) "reading_level" (.str r2) with hF3
    have hchain : ∀ k : String, k ≠ "language" → k ≠ "target_audience" →
        k ≠ "book_type" → k ≠ "content_type" → k ≠ "reading_level" →
        lookupKey F3 k = lookupKey F2 k := by
      intro k h1 h2 h3 h4 h5
      rw [hF3, lookupKey_setKey_ne _ _ _ _ h5, lookupKey_setKey_ne _ _ _ _ h4,
        lookupKey_setKey_ne _ _ _ _ h3, lookupKey_setKey_ne _ _ _ _ h2,
        lookupKey_setKey_ne _ _ _ _ h1]
    have hT : lookupKey F3 "title" = some (.str t) := by
      rw [hchain _ (by decide) (by decide) (by decide) (by decide) (by decide),
        hcov2 _ (by decide)]
      exact ht2
    have hA : lookupKey F3 "author" = some (.str a) := by
      rw [hchain _ (by decide) (by decide) (by decide) (by decide) (by decide),
        hcov2 _ (by decide)]
      exact ha2
    have hD : lookupKey F3 "description" = some (.str d) := by
      rw [hchain _ (by decide) (by decide) (by decide) (by decide) (by decide),
        hcov2 _ (by decide)]
      exact hd2
    have hG : okClassVal (lookupKey F3 "genre") = true := by
      rw [hchain _ (by decide) (by decide) (by decide) (by decide) (by decide),
        hcov2 _ (by decide)]
      exact hge
    have hY : okNumVal (lookupKey F3 "year_published") = true := by
      rw [hchain _ (by decide) (by decide) (by decide) (by decide) (by decide),
        hcov2 _ (by decide)]
      exact hye
    have hR : okNumVal (lookupKey F3 "rating") = true := by
      rw [hchain _ (by decide) (by decide) (by decide) (by decide) (by decide),
        hcov2 _ (by decide)]
      exact hra
    have hC : lookupKey F3 "cover_image_url" =
        some (.str (resolve_cover h cov t a)) := by
      rw [hchain _ (by decide) (by decide) (by decide) (by decide) (by decide), hF2]
      exact lookupKey_setKey_self _ _ _
    have hL : lookupKey F3 "language" = some (.str l) := by
      rw [hF3, lookupKey_setKey_ne _ _ _ _ (by decide),
        lookupKey_setKey_ne _ _ _ _ (by decide),
        lookupKey_setKey_ne _ _ _ _ (by decide),
        lookupKey_setKey_ne _ _ _ _ (by decide)]
      exact lookupKey_setKey_self _ _ _
    have hTA : lookupKey F3 "target_audience" = some (.str a2) := by
      rw [hF3, lookupKey_setKey_ne _ _ _ _ (by decide),
        lookupKey_setKey_ne _ _ _ _ (by decide),
        lookupKey_setKey_ne _ _ _ _ (by decide)]
      exact lookupKey_setKey_self _ _ _
    have hBT : lookupKey F3 "book_type" = some (.str b2) := by
      rw [hF3, lookupKey_setKey_ne _ _ _ _ (by decide),
        lookupKey_setKey_ne _ _ _ _ (by decide)]
      exact lookupKey_setKey_self _ _ _
    have hCT : lookupKey F3 "content_type" = some (.str c2) := by
      rw [hF3, lookupKey_setKey_ne _ _ _ _ (by decide)]
      exact lookupKey_setKey_self _ _ _
    have hRL : lookupKey F3 "reading_level" = some (.str r2) := by
      rw [hF3]
      exact lookupKey_setKey_self _ _ _
    obtain ⟨g, hg⟩ := optStr_of_okClass _ hG
    obtain ⟨y, hy⟩ := optNum_of_okNum _ hY
    obtain ⟨ra, hra2⟩ := optNum_of_okNum _ hR
    have hbfd : (bookFromData F3).isSome = true := by
      unfold bookFromData
      rw [hT, hA, hD]
      simp only [reqStr]
      rw [hg, hy, hra2, hC, hL, hTA, hBT, hCT, hRL]
      simp [optStr]
    have hbb : buildBook h cov (.obj fields) = bookFromData F3 := by
      unfold buildBook
      simp only [ht2, ha2, Option.getD_some, hval]
    rw [hbb]
    exact hbfd

theorem filterMap_length_eq {α β : Type} (f : α → Option β) :
    ∀ l : List α, (∀ x ∈ l, (f x).isSome = true) →
      (l.filterMap f).length = l.length := by
  intro l
  induction l with
  | nil => intro _; rfl
  | cons x l ih =>
    intro hall
    obtain ⟨y, hy⟩ := Option.isSome_iff_exists.1 (hall x (by simp))
    rw [List.filterMap_cons_some hy, List.length_cons, List.length_cons,
      ih (fun a ha => hall a (by simp [ha]))]

theorem isEmpty_false_of_length_pos {α : Type} (l : List α) (h : 0 < l.length) :
    l.isEmpty = false := by
  cases l with
  | nil => simp at h
  | cons a l => rfl

theorem pySliceTo_length_le {α : Type} (xs : List α) (n : Int) (hn : 0 ≤ n) :
    (pySliceTo xs n).length ≤ n.toNat := by
  unfold pySliceTo
  rw [if_pos hn, List.length_take]
  omega

theorem pySliceJson_length (bd : Json) (n : Int) (hn : 0 ≤ n) (sliced : List Json)
    (hok : pySliceJson bd n = .ok sliced) : sliced.length ≤ n.toNat := by
  cases bd with
  | arr xs =>
    simp only [pySliceJson, Except.ok.injEq] at hok
    rw [← hok]
    exact pySliceTo_length_le xs n hn
  | str s =>
    simp only [pySliceJson, Except.ok.injEq] at hok
    rw [← hok, List.length_map]
    exact pySliceTo_length_le s.data n hn
  | null => simp [pySliceJson] at hok
  | bool b => simp [pySliceJson] at hok
  | num m => simp [pySliceJson] at hok
  | obj f => simp [pySliceJson] at hok

theorem finishStage_ok (h : String → Int) (cov : String → String → Option String)
    (query : String) (n : Int) (now : Nat) (bd : Json)
    (r : BookRecommendationResponse) (hn : 1 ≤ n)
    (hr : finishStage h cov query n now bd = .ok r) :
    r.total_count = r.recommendations.length ∧
    1 ≤ r.recommendations.length ∧
    (r.recommendations.length : Int) ≤ n := by
  unfold finishStage at hr
  split at hr
  · exact absurd hr (by simp)
  · rename_i sliced hsl
    have hr2 : (if (sliced.filterMap (buildBook h cov)).isEmpty = true then
        (Except.error (PyErr.httpError 500
          "No valid book recommendations could be generated") :
          Except PyErr BookRecommendationResponse)
      else .ok ⟨query, sliced.filterMap (buildBook h cov), now,
        (sliced.filterMap (buildBook h cov)).length⟩) = .ok r := hr
    clear hr
    split at hr2
    · exact absurd hr2 (by simp)
    · rename_i hnotEmpty
      have hr3 := hr2
      injection hr3 with hval
      rw [← hval]
      refine ⟨rfl, ?_, ?_⟩
      · show 1 ≤ (sliced.filterMap (buildBook h cov)).length
        have : sliced.filterMap (buildBook h cov) ≠ [] := by
          intro hc
          exact hnotEmpty (by rw [hc]; rfl)
        have := List.length_pos.2 this
        omega
      · show ((sliced.filterMap (buildBook h cov)).length : Int) ≤ n
        have h1 : (sliced.filterMap (buildBook h cov)).length ≤ sliced.length :=
          List.length_filterMap_le _ _
        have h2 : sliced.length ≤ n.toNat := pySliceJson_length bd n (by omega) sliced hsl
        omega

theorem wrap500_ok {α : Type} (x : Except PyErr α) (r : α)
    (h : wrap500 x = .ok r) : x = .ok r := by
  unfold wrap500 at h
  split at h
  · exact h
  · exact absurd h (by simp)

theorem genRecs_ok_shape (h : String → Int) (cov : String → String → Option String)
    (fix : String → String) (o1 o2 : ModelOutcome) (now : Nat) (q : String)
    (n : Int) (r : BookRecommendationResponse) (hn : 1 ≤ n)
    (hr : generate_recommendations h cov fix o1 o2 true now q n = .ok r) :
    r.total_count = r.recommendations.length ∧
    1 ≤ r.recommendations.length ∧
    (r.recommendations.length : Int) ≤ n := by
  unfold generate_recommendations at hr
  rw [if_neg (by simp)] at hr
  have hbody := wrap500_ok _ _ hr
  unfold genRecsBody at hbody
  split at hbody
  · exact absurd hbody (by simp)
  · exact absurd hbody (by simp)
  · rename_i content0
    split at hbody
    · exact absurd hbody (by simp)
    · split at hbody
      · exact absurd hbody (by simp)
      · rename_i bd hps
        exact finishStage_ok h cov q n now bd r hn hbody

theorem pyTitlesLower_ok (xs : List Json)
    (hwf : ∀ j ∈ xs, wellFormedCandidate j = true) :
    ∃ ts, pyTitlesLower xs = .ok ts := by
  induction xs with
  | nil => exact ⟨[], rfl⟩
  | cons j js ih =>
    obtain ⟨ts, hts⟩ := ih (fun a ha => hwf a (by simp [ha]))
    have hj := hwf j (by simp)
    have hone : ∃ t, pyTitleLower j = .ok t := by
      match j, hj with
      | .obj fields, hj =>
        unfold wellFormedCandidate at hj
        simp only [Bool.and_eq_true] at hj
        obtain ⟨s, hs⟩ := isReqStr_elim _ hj.1.1.1.1.1.1.1.1.1.1
        refine ⟨pyLower s, ?_⟩
        simp only [pyTitleLower, hs, Option.getD_some]
    obtain ⟨t, ht⟩ := hone
    refine ⟨t :: ts, ?_⟩
    unfold pyTitlesLower
    rw [ht, hts]

theorem truncAugment_exact (h : String → Int) (q : String) (n : Int)
    (xs : List Json) (hn : 1 ≤ n)
    (hwf : ∀ j ∈ xs, wellFormedCandidate j = true) :
    ∃ ys, truncAugmentStage h q n xs = .ok (.arr ys) ∧
      ys.length = n.toNat ∧ ∀ j ∈ ys, wellFormedCandidate j = true := by
  unfold truncAugmentStage
  by_cases hlt : (xs.length : Int) < n
  · rw [if_pos hlt]
    obtain ⟨ts, hts⟩ := pyTitlesLower_ok xs hwf
    rw [hts]
    obtain ⟨hslen, _, _, _, hswf⟩ :=
      generate_synthetic_props h q (n - xs.length).toNat ts
    refine ⟨_, rfl, ?_, ?_⟩
    · unfold pySliceTo
      rw [if_pos (by omega), List.length_take, List.length_append, hslen]
      omega
    · intro j hj
      unfold pySliceTo at hj
      rw [if_pos (by omega)] at hj
      rcases List.mem_append.1 (List.mem_of_mem_take hj) with hh | hh
      · exact hwf j hh
      · exact hswf j hh
  · rw [if_neg hlt]
    refine ⟨_, rfl, ?_, ?_⟩
    · unfold pySliceTo
      rw [if_pos (by omega), List.length_take]
      omega
    · intro j hj
      unfold pySliceTo at hj
      rw [if_pos (by omega)] at hj
      exact hwf j (List.mem_of_mem_take hj)

theorem genRecs_exact (h : String → Int) (cov : String → String → Option String)
    (fix : String → String) (o2 : ModelOutcome) (now : Nat) (q raw : String)
    (n : Int) (xs : List Json)
    (hraw : raw ≠ "")
    (hload : loads (cleanContent raw) = some (.arr xs))
    (hwf : ∀ j ∈ xs, wellFormedCandidate j = true)
    (hn1 : 1 ≤ n) :
    ∃ r, generate_recommendations h cov fix (.text raw) o2 true now q n = .ok r ∧
      r.recommendations.length = n.toNat ∧ r.total_count = n.toNat := by
  obtain ⟨ys, hta, hylen, hywf⟩ := truncAugment_exact h q n xs hn1 hwf
  have hps : parseStage h fix q n (cleanContent raw) = .ok (.arr ys) := by
    unfold parseStage
    rw [hload]
    exact hta
  have hslice : pySliceJson (.arr ys) n = .ok ys := by
    show Except.ok (pySliceTo ys n) = .ok ys
    unfold pySliceTo
    rw [if_pos (show (0 : Int) ≤ n by omega), List.take_of_length_le (by omega)]
  set books := ys.filterMap (buildBook h cov) with hbooks
  have hblen : books.length = ys.length :=
    filterMap_length_eq _ ys (fun j hj => buildBook_isSome h cov j (hywf j hj))
  have hnotEmpty : books.isEmpty = false :=
    isEmpty_false_of_length_pos _ (by rw [hblen, hylen]; omega)
  have hfin : finishStage h cov q n now (.arr ys) =
      .ok ⟨q, books, now, books.length⟩ := by
    unfold finishStage
    rw [hslice]
    show (if books.isEmpty = true then
        (Except.error (PyErr.httpError 500
          "No valid book recommendations could be generated") :
          Except PyErr BookRecommendationResponse)
      else .ok ⟨q, books, now, books.length⟩) = .ok ⟨q, books, now, books.length⟩
    rw [hnotEmpty]
    rfl
  have hbody : genRecsBody h cov fix (.text raw) o2 now q n =
      .ok ⟨q, books, now, books.length⟩ := by
    have h1 : genRecsBody h cov fix (.text raw) o2 now q n =
        (if raw = "" then
          .error (.httpError 500
            "Unable to generate recommendations - all models failed or were blocked")
        else
          match parseStage h fix q n (cleanContent raw) with
          | .error e => .error e
          | .ok bd => finishStage h cov q n now bd) := rfl
    rw [h1, if_neg hraw, hps]
    exact hfin
  refine ⟨⟨q, books, now, books.length⟩, ?_, ?_, ?_⟩
  · unfold generate_recommendations
    rw [if_neg (by simp), hbody]
    rfl
  · show books.length = n.toNat
    rw [hblen, hylen]
  · show books.length = n.toNat
    rw [hblen, hylen]

theorem find?_eq_of_mem {α : Type} [DecidableEq α] (c : α) :
    ∀ l : List α, c ∈ l → l.find? (fun x => x = c) = some c := by
  intro l
  induction l with
  | nil => intro hmem; simp at hmem
  | cons a l ih =>
    intro hmem
    by_cases hac : a = c
    · subst hac
      rw [List.find?_cons_of_pos _ (by simp)]
    · rw [List.find?_cons_of_neg _ (by simp [hac])]
      apply ih
      rcases List.mem_cons.1 hmem with h1 | h1
      · exact absurd h1.symm hac
      · exact h1

theorem listStarts_append (l r : List Char) : listStarts l (l ++ r) = true := by
  induction l with
  | nil => rfl
  | cons a l ih =>
    show (a = a && listStarts l (l ++ r)) = true
    simp [ih]

/-- C2 counterexample: the claim says a count at or below 0 becomes 1.
In the code a negative count passes through `min(·, 150)` unchanged
(`count=-5` yields `-5`), and an explicit 0 falls through the or-chain to
the default 20; neither is ever clamped to 1. -/
theorem C2_clamp_cex :
    router_max_recs (some (-5)) none = -5 ∧ (-5 : Int) ≠ 1 ∧
    router_max_recs (some 0) none = 20 ∧ (20 : Int) ≠ 1 := by decide

/-- C2 (amended): the requested count is capped above at 150 before use;
a count above 150 becomes 150; an absent or zero count defaults to 20
through the `count or max_recommendations or 20` chain; a negative count
is passed through unchanged — there is no lower clamp. -/
theorem C2_clamp_amended (c m : Option Int) (cv : Int) :
    router_max_recs c m ≤ 150 ∧
    (c = some cv → 150 < cv → router_max_recs c m = 150) ∧
    (c = some cv → cv < 0 → router_max_recs c m = cv) ∧
    router_max_recs (some 0) none = 20 ∧
    router_max_recs none none = 20 := by
  refine ⟨?_, ?_, ?_, by decide, by decide⟩
  · exact min_le_right _ _
  · intro hc h150
    subst hc
    have hreq : requested_count (some cv) m = cv := by
      show (if cv ≠ 0 then cv else
        (match m with
         | some mv => if mv ≠ 0 then mv else 20
         | none => 20)) = cv
      rw [if_pos (show cv ≠ 0 by omega)]
    unfold router_max_recs
    rw [hreq]
    omega
  · intro hc hneg
    subst hc
    have hreq : requested_count (some cv) m = cv := by
      show (if cv ≠ 0 then cv else
        (match m with
         | some mv => if mv ≠ 0 then mv else 20
         | none => 20)) = cv
      rw [if_pos (show cv ≠ 0 by omega)]
    unfold router_max_recs
    rw [hreq]
    omega

/-- Witness for C2 (amended), at counts 200 and -3. -/
theorem C2_clamp_amended_witness :
    router_max_recs (some 200) none = 150 ∧
    router_max_recs (some (-3)) none = -3 ∧
    router_max_recs (some 200) none ≤ 150 :=
  ⟨(C2_clamp_amended (some 200) none 200).2.1 rfl (by decide),
   (C2_clamp_amended (some (-3)) none (-3)).2.2.1 rfl (by decide),
   (C2_clamp_amended (some 200) none 200).1⟩

/-- C3: when every model identifier in the fallback list withholds output
for safety reasons, the code builds the user-facing 400
ContentPolicyBlocked `HTTPException` (gemini_service.py lines 242-245),
but the catch-all `except Exception` at line 415 catches that
HTTPException (`HTTPException` subclasses `Exception`) and re-raises it
as a generic 500 "Error generating recommendations" error.  The caller
therefore receives a generic server error and not the 400-class
content-policy error the claim describes; the second conjunct shows the
400 error is indeed produced inside the model loop before being
swallowed. -/
theorem C3_policy_block_swallowed (h : String → Int)
    (cov : String → String → Option String) (fix : String → String)
    (now : Nat) (q : String) (n : Int) :
    generate_recommendations h cov fix .safetyBlocked .safetyBlocked true now q n =
      .error (.httpError 500 ("Error generating recommendations: " ++
        pyErrStr (.httpError 400 (policyDetail q)))) ∧
    modelLoop q [.safetyBlocked, .safetyBlocked] =
      .error (.httpError 400 (policyDetail q)) :=
  ⟨rfl, rfl⟩

/-- C7: for every query, shortage count and set of existing lowercased
titles, `generate_synthetic_books` returns exactly `count` records, each
carrying a title; the lowercased titles are pairwise distinct and none of
them collides with a supplied existing title. -/
theorem C7_synthetic_unique (h : String → Int) (query : String) (count : Nat)
    (existing_titles : List String) :
    (generate_synthetic_books h query count existing_titles).length = count ∧
    (titleLowers (generate_synthetic_books h query count existing_titles)).length = count ∧
    (titleLowers (generate_synthetic_books h query count existing_titles)).Nodup ∧
    ∀ t ∈ titleLowers (generate_synthetic_books h query count existing_titles),
      t ∉ existing_titles := by
  obtain ⟨h1, h2, h3, h4, _⟩ := generate_synthetic_props h query count existing_titles
  exact ⟨h1, h2, h3, h4⟩

/-- Witness for C7: two synthetic books for the query "horror" against
one existing title. -/
theorem C7_synthetic_unique_witness :
    (generate_synthetic_books (fun _ => 0) "horror" 2 ["x"]).length = 2 ∧
    (titleLowers (generate_synthetic_books (fun _ => 0) "horror" 2 ["x"])).Nodup ∧
    "the essential horror collection - volume 1" ∉ ["x"] :=
  ⟨(C7_synthetic_unique (fun _ => 0) "horror" 2 ["x"]).1,
   (C7_synthetic_unique (fun _ => 0) "horror" 2 ["x"]).2.2.1,
   (C7_synthetic_unique (fun _ => 0) "horror" 2 ["x"]).2.2.2
     "the essential horror collection - volume 1" (by decide)⟩

/-- C9: the cache-eviction behaviour the claim describes is what the body
of `cache_books` (recommendations.py lines 45-52) was written to do, but
the module never imports `time`, so the very first expression
`CACHE[cache_key] = (books, time.time())` raises
`NameError: name 'time' is not defined` on every call — nothing is ever
inserted or evicted.  This theorem evaluates the code at the failing
input (any call at all). -/
theorem C9_cache_put_name_error (c : CacheEntries (List Book)) (key : String)
    (books : List Book) :
    cache_books c key books =
      .error (.nameError "name \x27time\x27 is not defined") := rfl

/-- C10: an explicit requested count of 0 is treated as absent: the
property `count or max_recommendations or 20` skips falsy values, so a
request with `count=0` (and no legacy field, or a zero legacy field)
proceeds as a request for 20 books — it is neither rejected nor clamped
to 1 — and a zero count falls through to a nonzero legacy field when one
is present. -/
theorem C10_zero_count_default :
    requested_count (some 0) none = 20 ∧
    requested_count (some 0) (some 0) = 20 ∧
    requested_count none none = 20 ∧
    router_max_recs (some 0) none = 20 ∧
    requested_count (some 0) (some 7) = 7 := by decide

/-- C1 counterexample: the claim that every successful
`generate_recommendations` call returns exactly the clamped requested
count of books, even when individual candidates fail per-book
construction, is false.  With a valid requested count of 2 and a parsed
array of two candidates of which the first lacks the required
`description` field, the per-book `except` clause drops the failing
candidate (gemini_service.py lines 396-399) and the call still succeeds —
returning 1 book, not 2 (`total_count` tracks the shorter length). -/
theorem C1_exact_count_cex :
    (generate_recommendations (fun _ => 0)
        (fun _ _ => some "https://img.example/x.jpg") (fun s => s)
        (.text "[\x7b\"title\": \"A\", \"author\": \"B\"\x7d, \x7b\"title\": \"C\", \"author\": \"D\", \"description\": \"E\"\x7d]")
        (.text "x") true 0 "q" 2).map
      (fun r => (r.total_count, r.recommendations.length)) = .ok (1, 1) ∧
    (1 : Nat) ≠ 2 :=
  ⟨rfl, by decide⟩

/-- C1 (amended): on every successful call with a requested count
`n ∈ [1,150]`, `total_count` equals the length of the returned sequence,
which is at least 1 and at most `n` — but it can be shorter than `n`,
because a candidate that fails per-book construction is dropped.  The
exact-count guarantee holds under the additional assumption that every
parsed candidate is well formed (required string fields present,
optional fields well typed): then synthetic augmentation and truncation
yield exactly `n` books. -/
theorem C1_exact_count_amended (h : String → Int)
    (cov : String → String → Option String) (fix : String → String)
    (o1 o2 : ModelOutcome) (now : Nat) (q raw : String) (n : Int)
    (xs : List Json) :
    (1 ≤ n → ∀ r, generate_recommendations h cov fix o1 o2 true now q n = .ok r →
      r.total_count = r.recommendations.length ∧
      1 ≤ r.recommendations.length ∧ (r.recommendations.length : Int) ≤ n) ∧
    (o1 = .text raw → raw ≠ "" → loads (cleanContent raw) = some (.arr xs) →
      (∀ j ∈ xs, wellFormedCandidate j = true) → 1 ≤ n → n ≤ 150 →
      ∃ r, generate_recommendations h cov fix o1 o2 true now q n = .ok r ∧
        r.recommendations.length = n.toNat ∧ r.total_count = n.toNat) := by
  constructor
  · intro hn r hr
    exact genRecs_ok_shape h cov fix o1 o2 now q n r hn hr
  · intro ho1 hraw hload hwf hn1 _
    subst ho1
    exact genRecs_exact h cov fix o2 now q raw n xs hraw hload hwf hn1

/-- Witness for C1 (amended): one well-formed parsed candidate and a
requested count of 2; augmentation fills the shortage and exactly 2 books
are returned. -/
theorem C1_exact_count_amended_witness :
    ∃ r, generate_recommendations (fun _ => 0)
        (fun _ _ => some "https://img.example/x.jpg") (fun s => s)
        (.text "[\x7b\"title\": \"C\", \"author\": \"D\", \"description\": \"E\"\x7d]")
        (.text "x") true 0 "horror books" 2 = .ok r ∧
      r.recommendations.length = (2 : Int).toNat ∧
      r.total_count = (2 : Int).toNat :=
  (C1_exact_count_amended (fun _ => 0)
      (fun _ _ => some "https://img.example/x.jpg") (fun s => s)
      (.text "[\x7b\"title\": \"C\", \"author\": \"D\", \"description\": \"E\"\x7d]")
      (.text "x") 0 "horror books"
      "[\x7b\"title\": \"C\", \"author\": \"D\", \"description\": \"E\"\x7d]" 2
      [Json.obj [("title", .str "C"), ("author", .str "D"), ("description", .str "E")]]).2
    rfl (by decide) rfl (by decide) (by decide) (by decide)

/-- C4 counterexample: the claim says the parser, after a direct parse
that requires a top-level array, falls back to bracket extraction and
then one repair round-trip.  But a syntactically valid non-array response
raises `ValueError`, which `except json.JSONDecodeError` does not catch:
the call aborts with the generic wrapped 500 without attempting
extraction — even though extraction would have recovered the inner array
`[1, 2]`, as the second and third conjuncts show. -/
theorem C4_parser_cex :
    generate_recommendations (fun _ => 0) (fun _ _ => none) (fun s => s)
        (.text "\x7b\"books\": [1, 2]\x7d") (.text "x") true 0 "q" 5 =
      .error (.httpError 500 ("Error generating recommendations: " ++
        pyErrStr (.valueError "Response must be a JSON array"))) ∧
    extractBracket (cleanContent "\x7b\"books\": [1, 2]\x7d") = some "[1, 2]" ∧
    loads "[1, 2]" = some (.arr [.num 1, .num 2]) :=
  ⟨rfl, rfl, rfl⟩

/-- C4 (amended): the recovery chain — strip fences, direct parse,
greedy bracket extraction, one repair round-trip carrying at most the
first 1000 characters, terminal failure — applies only to syntactic
parse failures (`JSONDecodeError`).  (a) A syntactically valid non-array
value of any shape (object, number, string, boolean or null at top
level) aborts immediately with the generic wrapped `ValueError`, with no
extraction and no repair.  (b) When the direct parse fails and the
extracted bracket span parses, its value is used with no repair call.
(c) When the direct parse fails, extraction finds no span and the single
repair output fails to parse, the call fails with the terminal
malformed-response error and no further repair is attempted. -/
theorem C4_parser_amended (h : String → Int)
    (cov : String → String → Option String) (fix : String → String)
    (o2 : ModelOutcome) (now : Nat) (q raw span : String) (n : Int)
    (j : Json) (xs : List Json) :
    (raw ≠ "" → loads (cleanContent raw) = some j → (∀ ys, j ≠ .arr ys) →
      generate_recommendations h cov fix (.text raw) o2 true now q n =
        .error (.httpError 500 ("Error generating recommendations: " ++
          pyErrStr (.valueError "Response must be a JSON array")))) ∧
    (raw ≠ "" → loads (cleanContent raw) = none →
      extractBracket (cleanContent raw) = some span →
      loads span = some (.arr xs) →
      generate_recommendations h cov fix (.text raw) o2 true now q n =
        wrap500 (finishStage h cov q n now (.arr xs))) ∧
    (raw ≠ "" → loads (cleanContent raw) = none →
      extractBracket (cleanContent raw) = none →
      loads (cleanContent (fix (fixPromptOf (cleanContent raw)))) = none →
      generate_recommendations h cov fix (.text raw) o2 true now q n =
        .error (.httpError 500 ("Error generating recommendations: " ++
          pyErrStr (.httpError 500
            "Failed to parse Gemini response as JSON after multiple attempts")))) := by
  have hbodyEq : genRecsBody h cov fix (.text raw) o2 now q n =
      (if raw = "" then
        .error (.httpError 500
          "Unable to generate recommendations - all models failed or were blocked")
      else
        match parseStage h fix q n (cleanContent raw) with
        | .error e => .error e
        | .ok bd => finishStage h cov q n now bd) := rfl
  refine ⟨?_, ?_, ?_⟩
  · intro hraw hload hj
    have hps : parseStage h fix q n (cleanContent raw) =
        .error (.valueError "Response must be a JSON array") := by
      unfold parseStage
      rw [hload]
      cases j with
      | arr ys => exact absurd rfl (hj ys)
      | null => rfl
      | bool b => rfl
      | num m => rfl
      | str s => rfl
      | obj kvs => rfl
    have hbody : genRecsBody h cov fix (.text raw) o2 now q n =
        .error (.valueError "Response must be a JSON array") := by
      rw [hbodyEq, if_neg hraw, hps]
    unfold generate_recommendations
    rw [if_neg (by simp), hbody]
    rfl
  · intro hraw hload hext hspan
    have hps : parseStage h fix q n (cleanContent raw) = .ok (.arr xs) := by
      simp only [parseStage, hload, hext, hspan]
    have hbody : genRecsBody h cov fix (.text raw) o2 now q n =
        finishStage h cov q n now (.arr xs) := by
      rw [hbodyEq, if_neg hraw, hps]
    unfold generate_recommendations
    rw [if_neg (by simp), hbody]
  · intro hraw hload hext hfix
    have hps : parseStage h fix q n (cleanContent raw) =
        .error (.httpError 500
          "Failed to parse Gemini response as JSON after multiple attempts") := by
      simp only [parseStage, hload, hext, hfix]
    have hbody : genRecsBody h cov fix (.text raw) o2 now q n =
        .error (.httpError 500
          "Failed to parse Gemini response as JSON after multiple attempts") := by
      rw [hbodyEq, if_neg hraw, hps]
    unfold generate_recommendations
    rw [if_neg (by simp), hbody]
    rfl

/-- Witness for C4 (amended), exercising all three branches on concrete
inputs: a non-array object response, a non-array number response, a
response recovered by bracket extraction, and a response on which
extraction and the single repair both fail. -/
theorem C4_parser_amended_witness :
    (generate_recommendations (fun _ => 0) (fun _ _ => none) (fun s => s)
        (.text "\x7b\"a\": 1\x7d") (.text "x") true 0 "q" 3 =
      .error (.httpError 500 ("Error generating recommendations: " ++
        pyErrStr (.valueError "Response must be a JSON array")))) ∧
    (generate_recommendations (fun _ => 0) (fun _ _ => none) (fun s => s)
        (.text "7") (.text "x") true 0 "q" 3 =
      .error (.httpError 500 ("Error generating recommendations: " ++
        pyErrStr (.valueError "Response must be a JSON array")))) ∧
    (generate_recommendations (fun _ => 0) (fun _ _ => none) (fun s => s)
        (.text "x [1] y") (.text "x") true 0 "q" 3 =
      wrap500 (finishStage (fun _ => 0) (fun _ _ => none) "q" 3 0
        (.arr [.num 1]))) ∧
    (generate_recommendations (fun _ => 0) (fun _ _ => none)
        (fun _ => "still bad") (.text "oops") (.text "x") true 0 "q" 3 =
      .error (.httpError 500 ("Error generating recommendations: " ++
        pyErrStr (.httpError 500
          "Failed to parse Gemini response as JSON after multiple attempts")))) :=
  ⟨(C4_parser_amended (fun _ => 0) (fun _ _ => none) (fun s => s)
      (.text "x") 0 "q" "\x7b\"a\": 1\x7d" "" 3 (.obj [("a", .num 1)]) []).1
      (by decide) rfl (fun ys hc => Json.noConfusion hc),
   (C4_parser_amended (fun _ => 0) (fun _ _ => none) (fun s => s)
      (.text "x") 0 "q" "7" "" 3 (.num 7) []).1
      (by decide) rfl (fun ys hc => Json.noConfusion hc),
   (C4_parser_amended (fun _ => 0) (fun _ _ => none) (fun s => s)
      (.text "x") 0 "q" "x [1] y" "[1]" 3 .null [.num 1]).2.1
      (by decide) rfl rfl rfl,
   (C4_parser_amended (fun _ => 0) (fun _ _ => none) (fun _ => "still bad")
      (.text "x") 0 "q" "oops" "" 3 .null []).2.2
      (by decide) rfl rfl rfl⟩

theorem strStarts_of_append (pre rest : String) : strStarts (pre ++ rest) pre = true := by
  unfold strStarts
  rw [String.data_append]
  exact listStarts_append _ _

/-- C5: the vocabulary normalizer is total on every raw field input
(absent, JSON null, or an arbitrary string) for each of the five
classification fields, always returning a member of the field's closed
valid set; for absent/null values and for strings that match nothing it
returns the field-specific default (English / general / fiction / novel /
intermediate), never an invalid raw passthrough. -/
theorem C5_normalizer_total (s : String) :
    (∃ v, normLanguage (some (.str s)) = .ok v ∧ v ∈ valid_languages) ∧
    (∃ v, normAudience (some (.str s)) = .ok v ∧ v ∈ valid_audiences) ∧
    (∃ v, normBookType (some (.str s)) = .ok v ∧ v ∈ valid_book_types) ∧
    (∃ v, normContentType (some (.str s)) = .ok v ∧ v ∈ valid_content_types) ∧
    (∃ v, normReadingLevel (some (.str s)) = .ok v ∧ v ∈ valid_reading_levels) ∧
    (normLanguage (some .null) = .ok "English" ∧ normLanguage none = .ok "English") ∧
    (normAudience (some .null) = .ok "general" ∧ normAudience none = .ok "general") ∧
    (normBookType (some .null) = .ok "fiction" ∧ normBookType none = .ok "fiction") ∧
    (normContentType (some .null) = .ok "novel" ∧ normContentType none = .ok "novel") ∧
    (normReadingLevel (some .null) = .ok "intermediate" ∧
      normReadingLevel none = .ok "intermediate") ∧
    ((∀ v ∈ valid_languages, pyLower v ≠ pyLower s) →
      normLanguage (some (.str s)) = .ok "English") ∧
    ((∀ v ∈ valid_audiences, v ≠ pyLower s) →
      normAudience (some (.str s)) = .ok "general") ∧
    ((∀ v ∈ valid_reading_levels, v ≠ pyLower s) →
      normReadingLevel (some (.str s)) = .ok "intermediate") ∧
    (strContains (pyLower s) "non-fiction" = false →
      strContains (pyLower s) "nonfiction" = false →
      strContains (pyLower s) "fiction" = false →
      (∀ v ∈ valid_book_types, pyReplaceChar v '_' '-' ≠ pyLower s ∧ v ≠ pyLower s) →
      normBookType (some (.str s)) = .ok "fiction") ∧
    ((∀ v ∈ valid_content_types, pyReplaceChar v '_' ' ' ≠ pyLower s ∧ v ≠ pyLower s) →
      normContentType (some (.str s)) = .ok "novel") := by
  refine ⟨normLanguage_str_ok s, normAudience_str_ok s, normBookType_str_ok s,
    normContentType_str_ok s, normReadingLevel_str_ok s,
    ⟨rfl, rfl⟩, ⟨rfl, rfl⟩, ⟨rfl, rfl⟩, ⟨rfl, rfl⟩, ⟨rfl, rfl⟩, ?_, ?_, ?_, ?_, ?_⟩
  · intro hnone
    have hmem : s ∉ valid_languages := fun hs => hnone s hs rfl
    rw [normLanguage_str, if_neg hmem]
    have hf : valid_languages.find? (fun vl => pyLower vl = pyLower s) = none := by
      rw [List.find?_eq_none]
      intro x hx
      simp only [decide_eq_true_eq]
      exact hnone x hx
    rw [hf]
  · intro hnone
    have hmem : s ∉ valid_audiences := by
      intro hs
      have hlow : pyLower s = s := by fin_cases hs <;> rfl
      exact hnone s hs hlow.symm
    rw [normAudience_str, if_neg hmem]
    have hf : valid_audiences.find? (fun va => va = pyLower s) = none := by
      rw [List.find?_eq_none]
      intro x hx
      simp only [decide_eq_true_eq]
      exact hnone x hx
    rw [hf]
  · intro hnone
    have hmem : s ∉ valid_reading_levels := by
      intro hs
      have hlow : pyLower s = s := by fin_cases hs <;> rfl
      exact hnone s hs hlow.symm
    rw [normReadingLevel_str, if_neg hmem]
    have hf : valid_reading_levels.find? (fun vr => vr = pyLower s) = none := by
      rw [List.find?_eq_none]
      intro x hx
      simp only [decide_eq_true_eq]
      exact hnone x hx
    rw [hf]
  · intro hfic1 hfic2 hfic3 hnone
    have hmem : s ∉ valid_book_types := by
      intro hs
      have hlow : pyLower s = s := by fin_cases hs <;> rfl
      exact (hnone s hs).2 hlow.symm
    rw [normBookType_str, if_neg hmem]
    unfold bookTypeLoose
    rw [if_neg (by simp [hfic1, hfic2]), if_neg (by simp [hfic3])]
    have hf : valid_book_types.find?
        (fun vt => pyReplaceChar vt '_' '-' = pyLower s ∨ vt = pyLower s) = none := by
      rw [List.find?_eq_none]
      intro x hx
      simp only [decide_eq_true_eq]
      rintro (hcase | hcase)
      · exact (hnone x hx).1 hcase
      · exact (hnone x hx).2 hcase
    rw [hf]
  · intro hnone
    have hmem : s ∉ valid_content_types := by
      intro hs
      have hlow : pyLower s = s := by fin_cases hs <;> rfl
      exact (hnone s hs).2 hlow.symm
    rw [normContentType_str, if_neg hmem]
    have hf : valid_content_types.find?
        (fun vc => pyReplaceChar vc '_' ' ' = pyLower s ∨ vc = pyLower s) = none := by
      rw [List.find?_eq_none]
      intro x hx
      simp only [decide_eq_true_eq]
      rintro (hcase | hcase)
      · exact (hnone x hx).1 hcase
      · exact (hnone x hx).2 hcase
    rw [hf]

/-- Witness for C5: the garbage string "zzzz" falls back to every
field-specific default. -/
theorem C5_normalizer_total_witness :
    normLanguage (some (.str "zzzz")) = .ok "English" ∧
    normAudience (some (.str "zzzz")) = .ok "general" ∧
    normReadingLevel (some (.str "zzzz")) = .ok "intermediate" ∧
    normBookType (some (.str "zzzz")) = .ok "fiction" ∧
    normContentType (some (.str "zzzz")) = .ok "novel" :=
  ⟨(C5_normalizer_total "zzzz").2.2.2.2.2.2.2.2.2.2.1 (by decide),
   (C5_normalizer_total "zzzz").2.2.2.2.2.2.2.2.2.2.2.1 (by decide),
   (C5_normalizer_total "zzzz").2.2.2.2.2.2.2.2.2.2.2.2.1 (by decide),
   (C5_normalizer_total "zzzz").2.2.2.2.2.2.2.2.2.2.2.2.2.1
     (by decide) (by decide) (by decide) (by decide),
   (C5_normalizer_total "zzzz").2.2.2.2.2.2.2.2.2.2.2.2.2.2 (by decide)⟩

/-- C6 counterexample: the claim that every one of the five fields gets a
case-insensitive exact match first and then separator-insensitive loose
matching is false on two counts.  For book_type the substring checks
preempt any case-insensitive exact match: "Non_Fiction" — which matches
the valid value "non_fiction" up to case — normalizes to "fiction".  For
target_audience there is no loose matching at all: "young-adult" falls to
the default "general" rather than to "young_adult". -/
theorem C6_loose_match_cex :
    (normBookType (some (.str "Non_Fiction")) = .ok "fiction" ∧
      "fiction" ≠ "non_fiction") ∧
    (normAudience (some (.str "young-adult")) = .ok "general" ∧
      "general" ≠ "young_adult") :=
  ⟨⟨rfl, by decide⟩, ⟨rfl, by decide⟩⟩

/-- C6 (amended): separator-insensitive loose matching exists only for
book_type (hyphen for underscore, after substring checks for the fiction
variants) and content_type (space for underscore); language,
target_audience and reading_level get only a case-insensitive exact
match, and for book_type the fiction substring checks run before any
exact-up-to-case comparison. -/
theorem C6_loose_match_amended (s v : String) :
    normBookType (some (.str "non-fiction")) = .ok "non_fiction" ∧
    normContentType (some (.str "short stories")) = .ok "short_stories" ∧
    normBookType (some (.str "Non_Fiction")) = .ok "fiction" ∧
    normAudience (some (.str "young-adult")) = .ok "general" ∧
    normReadingLevel (some (.str "advan-ced")) = .ok "intermediate" ∧
    normLanguage (some (.str "hin-di")) = .ok "English" ∧
    (v ∈ valid_audiences → pyLower s = v → normAudience (some (.str s)) = .ok v) ∧
    (v ∈ valid_reading_levels → pyLower s = v →
      normReadingLevel (some (.str s)) = .ok v) ∧
    (v ∈ valid_languages → pyLower s = pyLower v →
      ∃ w, normLanguage (some (.str s)) = .ok w ∧ pyLower w = pyLower v) := by
  refine ⟨rfl, rfl, rfl, rfl, rfl, rfl, ?_, ?_, ?_⟩
  · intro hv hl
    rw [normAudience_str]
    by_cases hmem : s ∈ valid_audiences
    · rw [if_pos hmem]
      have hs : pyLower s = s := by fin_cases hmem <;> rfl
      rw [← hl, hs]
    · rw [if_neg hmem]
      have hf : valid_audiences.find? (fun va => va = pyLower s) = some v := by
        rw [hl]
        exact find?_eq_of_mem v valid_audiences hv
      rw [hf]
  · intro hv hl
    rw [normReadingLevel_str]
    by_cases hmem : s ∈ valid_reading_levels
    · rw [if_pos hmem]
      have hs : pyLower s = s := by fin_cases hmem <;> rfl
      rw [← hl, hs]
    · rw [if_neg hmem]
      have hf : valid_reading_levels.find? (fun vr => vr = pyLower s) = some v := by
        rw [hl]
        exact find?_eq_of_mem v valid_reading_levels hv
      rw [hf]
  · intro hv hpy
    rw [normLanguage_str]
    by_cases hmem : s ∈ valid_languages
    · rw [if_pos hmem]
      exact ⟨s, rfl, hpy⟩
    · rw [if_neg hmem]
      cases hfind : valid_languages.find? (fun vl => pyLower vl = pyLower s) with
      | some vl =>
        refine ⟨vl, rfl, ?_⟩
        have hvl := List.find?_some hfind
        simp only [decide_eq_true_eq] at hvl
        rw [hvl, hpy]
      | none =>
        exfalso
        rw [List.find?_eq_none] at hfind
        exact hfind v hv (by simp [hpy])

/-- Witness for C6 (amended): "ADULT", "Expert" and "HINDI" are matched
case-insensitively to their valid values. -/
theorem C6_loose_match_amended_witness :
    normAudience (some (.str "ADULT")) = .ok "adult" ∧
    normReadingLevel (some (.str "Expert")) = .ok "expert" ∧
    (∃ w, normLanguage (some (.str "HINDI")) = .ok w ∧
      pyLower w = pyLower "Hindi") :=
  ⟨(C6_loose_match_amended "ADULT" "adult").2.2.2.2.2.2.1 (by decide) (by decide),
   (C6_loose_match_amended "Expert" "expert").2.2.2.2.2.2.2.1 (by decide) (by decide),
   (C6_loose_match_amended "HINDI" "Hindi").2.2.2.2.2.2.2.2 (by decide) (by decide)⟩

/-- C8: cover resolution is total.  When the web lookup yields nothing
(or an empty URL, which is falsy in Python), the deterministic fallback
cover is used; when it yields a nonempty URL, that URL is returned.  The
fallback's background color is always a member of the fixed 12-color
palette, depends only on the lowercased title (same title modulo case —
in particular the same title — always yields the same color for a given
process hash seed), and the fallback URL is always a usable
placeholder-service URL.  `fetch_book_cover` catches every exception
internally and returns `None`, and `generate_fallback_cover`'s body is
total string arithmetic, so the composition never raises. -/
theorem C8_cover_total (h : String → Int) (cov : String → String → Option String)
    (title author t2 u : String) :
    (cov title author = none →
      resolve_cover h cov title author = generate_fallback_cover h title author) ∧
    (cov title author = some "" →
      resolve_cover h cov title author = generate_fallback_cover h title author) ∧
    (cov title author = some u → u ≠ "" →
      resolve_cover h cov title author = u) ∧
    fallbackColor h title ∈ cover_colors ∧
    (pyLower title = pyLower t2 → fallbackColor h title = fallbackColor h t2) ∧
    strStarts (generate_fallback_cover h title author)
      "https://via.placeholder.com/300x400/" = true := by
  refine ⟨?_, ?_, ?_, ?_, ?_, ?_⟩
  · intro hc
    unfold resolve_cover
    rw [hc]
  · intro hc
    unfold resolve_cover
    rw [hc]
    rfl
  · intro hc hu
    unfold resolve_cover
    rw [hc]
    show (if u = "" then generate_fallback_cover h title author else u) = u
    rw [if_neg hu]
  · unfold fallbackColor
    have hlen : cover_colors.length = 12 := rfl
    have hnn : (0 : Int) ≤ h (pyLower title) % (cover_colors.length : Int) :=
      Int.emod_nonneg _ (by rw [hlen]; decide)
    have hlt : h (pyLower title) % (cover_colors.length : Int) <
        (cover_colors.length : Int) := Int.emod_lt_of_pos _ (by rw [hlen]; decide)
    have hidx : (h (pyLower title) % (cover_colors.length : Int)).toNat <
        cover_colors.length := by omega
    rw [List.getD_eq_getElem _ _ hidx]
    exact List.getElem_mem hidx
  · intro hpy
    unfold fallbackColor
    rw [hpy]
  · have hsplit : generate_fallback_cover h title author =
        "https://via.placeholder.com/300x400/" ++ (fallbackColor h title ++
          ("/ffffff.png?text=" ++ (pyQuote (strTake title 20) ++
            ("%0A%0A" ++ pyQuote (strTake author 15))))) := by
      unfold generate_fallback_cover
      rw [String.append_assoc, String.append_assoc, String.append_assoc,
        String.append_assoc]
    rw [hsplit]
    exact strStarts_of_append _ _

/-- Witness for C8: for a constant hash and no web hit, the resolver
returns the fallback cover; the color for "Dune" is in the palette and
agrees with the color for "dUNE". -/
theorem C8_cover_total_witness :
    resolve_cover (fun _ => 7) (fun _ _ => none) "Dune" "Frank Herbert" =
      generate_fallback_cover (fun _ => 7) "Dune" "Frank Herbert" ∧
    fallbackColor (fun _ => 7) "Dune" ∈ cover_colors ∧
    fallbackColor (fun _ => 7) "Dune" = fallbackColor (fun _ => 7) "dUNE" :=
  ⟨(C8_cover_total (fun _ => 7) (fun _ _ => none) "Dune" "Frank Herbert" "dUNE" "u").1 rfl,
   (C8_cover_total (fun _ => 7) (fun _ _ => none) "Dune" "Frank Herbert" "dUNE" "u").2.2.2.1,
   (C8_cover_total (fun _ => 7) (fun _ _ => none) "Dune" "Frank Herbert" "dUNE" "u").2.2.2.2.1
     (by decide)⟩
